import Mathlib

/-!
Verification of the resume/job-description matching pipeline (ATS webapp).

The development shallowly embeds the backend scoring utilities:
text is represented as `List Char` (JS strings), JS numbers as `ℚ`
(the square root inside the cosine similarity is the one place where `ℝ`
is needed), and the literal regular expressions of the source are
transcribed into a small regex AST with a backtracking matcher that
follows JavaScript semantics (leftmost match, ordered alternation,
greedy quantifiers, `\b` word boundaries, `^` without the `m` flag).

All functions are structurally recursive so that concrete runs reduce
inside the kernel; the matcher is driven by an explicit fuel argument
that strictly bounds call depth and is instantiated generously enough
for every pattern in the sources.
-/

namespace ATS

/-- JS strings are modelled as lists of characters. -/
abbrev Str := List Char

/-- ASCII word character, the JavaScript regex class backslash-w. -/
def wordChar (c : Char) : Bool := c.isAlphanum || c = ('_')

/-- JavaScript regex whitespace class (the common members). -/
def wsChar (c : Char) : Bool :=
  c = (' ') || c = ('\t') || c = ('\n') || c = ('\r') || c = ('\x0b') || c = ('\x0c')

/-- Lowercasing a JS string (ASCII behaviour of `toLowerCase`). -/
def lower (s : Str) : Str := s.map Char.toLower

/-- Character range test by code point. -/
def inRange (lo hi c : Char) : Bool := lo.toNat ≤ c.toNat && c.toNat ≤ hi.toNat

def isUpperAZ (c : Char) : Bool := inRange ('A') ('Z') c
def isLowerAZ (c : Char) : Bool := inRange ('a') ('z') c
def isAlphaChar (c : Char) : Bool := isUpperAZ c || isLowerAZ c

/-- Does `hay` contain `pat` as a contiguous substring (JS `String.includes`)? -/
def startsWith : Str → Str → Bool
  | _, [] => true
  | [], _ :: _ => false
  | h :: hs, p :: ps => h = p && startsWith hs ps

def containsSub (hay pat : Str) : Bool :=
  match hay with
  | [] => startsWith ([]) pat
  | _ :: rest => startsWith hay pat || containsSub rest pat

/-- JS `String.trim`: strip leading and trailing whitespace. -/
def trimChars (s : Str) : Str :=
  ((s.dropWhile wsChar).reverse.dropWhile wsChar).reverse

/-- Split on the newline character (JS `split('\n')`, keeping empty pieces). -/
def splitNl : Str → List Str
  | [] => [[]]
  | c :: rest =>
    let r := splitNl rest
    if c = ('\n') then [] :: r
    else
      match r with
      | [] => [[c]]
      | h :: t => (c :: h) :: t

/-- Join a list of strings with a separator (JS `Array.join`). -/
def joinSep (sep : Str) : List Str → Str
  | [] => []
  | [x] => x
  | x :: xs => x ++ sep ++ joinSep sep xs

/-- Parse a run of decimal digits (JS `parseInt` on a digit-only prefix). -/
def parseNatDigits (s : Str) : Nat :=
  (s.takeWhile Char.isDigit).foldl (fun acc c => 10 * acc + (c.toNat - 48)) 0

/-- Keep the first occurrence of every element (JS `new Set(...)` order). -/
def dedupAux : List Str → List Str → List Str
  | _, [] => []
  | seen, x :: xs =>
    if seen.contains x then dedupAux seen xs else x :: dedupAux (x :: seen) xs

def firstDedup (l : List Str) : List Str := dedupAux ([]) l

/-- Rounding as JS `Math.round`: floor of x + 1/2. -/
def jsRound (q : ℚ) : ℤ := ⌊q + 1/2⌋

section Regex

/-- Regex AST covering the constructs used by the source's patterns.
`cls` is a single-character class, `wb` the word-boundary assertion and
`bos` the `^` anchor (no `m` flag anywhere in the source, so `^` means
start of input). -/
inductive RE where
  | eps : RE
  | cls : (Char → Bool) → RE
  | seq : RE → RE → RE
  | alt : RE → RE → RE
  | star : RE → RE
  | wb : RE
  | bos : RE

def RE.size : RE → Nat
  | .eps => 1
  | .cls _ => 1
  | .seq a b => a.size + b.size + 1
  | .alt a b => a.size + b.size + 1
  | .star a => a.size + 1
  | .wb => 1
  | .bos => 1

def RE.opt (r : RE) : RE := .alt r .eps
def RE.plus (r : RE) : RE := .seq r (.star r)

def RE.ofList : List RE → RE
  | [] => .eps
  | [r] => r
  | r :: rs => .seq r (RE.ofList rs)

/-- Ordered alternation of a list of alternatives. -/
def RE.altList : List RE → RE
  | [] => .cls (fun _ => false)
  | [r] => r
  | r :: rs => .alt r (RE.altList rs)

/-- Case-sensitive literal. -/
def lit (s : String) : RE := RE.ofList (s.data.map (fun c => RE.cls (fun x => x = c)))

/-- Case-insensitive literal (the `i` flag). -/
def ciLit (s : String) : RE :=
  RE.ofList (s.data.map (fun c => RE.cls (fun x => x.toLower = c.toLower)))

def chrR (c : Char) : RE := .cls (fun x => x = c)
def ciChr (c : Char) : RE := .cls (fun x => x.toLower = c.toLower)

def reDigit : RE := .cls Char.isDigit
def reWord : RE := .cls wordChar
def reWs : RE := .cls wsChar

/-- Word-boundary test between the previous character and the head of `s`. -/
def atBoundary (prev : Option Char) (s : Str) : Bool :=
  (match prev with | none => false | some c => wordChar c) !=
  (match s with | [] => false | c :: _ => wordChar c)

/-- Backtracking matcher in continuation-passing style.  The first success
in JavaScript's search order (ordered alternation, greedy `*`/`+`/`?`) is
returned.  `prev` is the character just before the current position (for
the `wb` and `bos` assertions); `fuel` strictly bounds the call depth. -/
def reM (fuel : Nat) (r : RE) (prev : Option Char) (s : Str)
    (k : Option Char → Str → Option Str) : Option Str :=
  match fuel with
  | 0 => none
  | fuel + 1 =>
    match r with
    | .eps => k prev s
    | .cls f =>
      match s with
      | [] => none
      | c :: rest => if f c then k (some c) rest else none
    | .seq a b => reM fuel a prev s (fun p2 s2 => reM fuel b p2 s2 k)
    | .alt a b => (reM fuel a prev s k).orElse (fun _ => reM fuel b prev s k)
    | .star a =>
      (reM fuel a prev s (fun p2 s2 =>
        if s2.length < s.length then reM fuel (.star a) p2 s2 k else none)).orElse
        (fun _ => k prev s)
    | .wb => if atBoundary prev s then k prev s else none
    | .bos => if prev.isNone then k prev s else none

/-- Fuel that amply bounds the matcher's call depth for the source's
patterns (each unit of consumed input costs at most `size` frames). -/
def bigFuel (r : RE) (s : Str) : Nat := (s.length + 2) * (r.size + 2) + 16

/-- Try to match `r` at the current position; on success return the
matched prefix and the rest of the input. -/
def reRun (r : RE) (prev : Option Char) (s : Str) : Option (Str × Str) :=
  match reM (bigFuel r s) r prev s (fun _ rest => some rest) with
  | none => none
  | some rest => some (s.take (s.length - rest.length), rest)

/-- Leftmost match: returns (text before, matched text, text after). -/
def reFind (r : RE) : Option Char → Str → Option (Str × Str × Str)
  | prev, s =>
    match reRun r prev s with
    | some (m, rest) => some (([]), m, rest)
    | none =>
      match s with
      | [] => none
      | c :: rest =>
        (reFind r (some c) rest).map (fun x => (c :: x.1, x.2.1, x.2.2))

/-- JS `regex.test(text)`. -/
def reTest (r : RE) (s : Str) : Bool := (reFind r none s).isSome

/-- JS `text.match(regex)[0]` for a non-global regex. -/
def reFirst (r : RE) (s : Str) : Option Str := (reFind r none s).map (fun x => x.2.1)

/-- JS `text.match(regex)` with the `g` flag: every match in order.
A zero-length match advances by one character, as `lastIndex` does. -/
def reGlobalGo (r : RE) : Nat → Option Char → Str → List Str
  | 0, _, _ => []
  | fuel + 1, prev, s =>
    match reFind r prev s with
    | none => []
    | some (before, m, rest) =>
      match m with
      | [] =>
        match rest with
        | [] => []
        | c :: rest2 => reGlobalGo r fuel (some c) rest2
      | _ => m :: reGlobalGo r fuel ((before ++ m).getLast?) rest

def reGlobal (r : RE) (s : Str) : List Str := reGlobalGo r (s.length + 1) none s

/-- The word-bounded, case-insensitive occurrence test used throughout the
term extractors: the regex built as backslash-b term backslash-b with flag i. -/
def wordRE (t : String) : RE := .seq .wb (.seq (ciLit t) .wb)

end Regex


/-! ## Technical term extractor (backend technical extractor module)

Curated vocabulary lists are copied verbatim from the source; each
category tests its list against the text with the source's regexes. -/

/-- The apostrophe character (used inside two vocabulary entries). -/
def apos : Char := '\x27'

/-- Curated vocabulary from the source (29 entries). -/
def languagesList : List Str := [
  ("javascript").data,
  ("typescript").data,
  ("python").data,
  ("java").data,
  ("c++").data,
  ("c#").data,
  ("c").data,
  ("php").data,
  ("ruby").data,
  ("go").data,
  ("rust").data,
  ("swift").data,
  ("kotlin").data,
  ("scala").data,
  ("r").data,
  ("matlab").data,
  ("perl").data,
  ("shell").data,
  ("bash").data,
  ("powershell").data,
  ("sql").data,
  ("html").data,
  ("css").data,
  ("dart").data,
  ("lua").data,
  ("clojure").data,
  ("haskell").data,
  ("erlang").data,
  ("elixir").data]

/-- Curated vocabulary from the source (45 entries). -/
def frameworksList : List Str := [
  ("react").data,
  ("angular").data,
  ("vue").data,
  ("svelte").data,
  ("ember").data,
  ("backbone").data,
  ("node.js").data,
  ("express").data,
  ("nestjs").data,
  ("fastapi").data,
  ("django").data,
  ("flask").data,
  ("spring").data,
  ("hibernate").data,
  ("struts").data,
  ("play framework").data,
  ("laravel").data,
  ("symfony").data,
  ("codeigniter").data,
  ("rails").data,
  ("sinatra").data,
  (".net").data,
  ("asp.net").data,
  ("entity framework").data,
  ("nhibernate").data,
  ("jquery").data,
  ("bootstrap").data,
  ("tailwind").data,
  ("material-ui").data,
  ("ant design").data,
  ("next.js").data,
  ("nuxt.js").data,
  ("gatsby").data,
  ("remix").data,
  ("sveltekit").data,
  ("graphql").data,
  ("apollo").data,
  ("relay").data,
  ("prisma").data,
  ("tensorflow").data,
  ("pytorch").data,
  ("keras").data,
  ("scikit-learn").data,
  ("pandas").data,
  ("numpy").data]

/-- Curated vocabulary from the source (54 entries). -/
def toolsList : List Str := [
  ("git").data,
  ("github").data,
  ("gitlab").data,
  ("bitbucket").data,
  ("svn").data,
  ("docker").data,
  ("kubernetes").data,
  ("jenkins").data,
  ("ci/cd").data,
  ("github actions").data,
  ("aws").data,
  ("azure").data,
  ("gcp").data,
  ("google cloud").data,
  ("heroku").data,
  ("vercel").data,
  ("terraform").data,
  ("ansible").data,
  ("chef").data,
  ("puppet").data,
  ("jira").data,
  ("confluence").data,
  ("slack").data,
  ("trello").data,
  ("asana").data,
  ("monday").data,
  ("postman").data,
  ("insomnia").data,
  ("swagger").data,
  ("api").data,
  ("webpack").data,
  ("vite").data,
  ("rollup").data,
  ("parcel").data,
  ("babel").data,
  ("eslint").data,
  ("prettier").data,
  ("jest").data,
  ("mocha").data,
  ("cypress").data,
  ("selenium").data,
  ("figma").data,
  ("sketch").data,
  ("adobe xd").data,
  ("invision").data,
  ("mongodb").data,
  ("mysql").data,
  ("postgresql").data,
  ("redis").data,
  ("elasticsearch").data,
  ("kafka").data,
  ("rabbitmq").data,
  ("nginx").data,
  ("apache").data]

/-- Curated vocabulary from the source (16 entries). -/
def platformsList : List Str := [
  ("linux").data,
  ("windows").data,
  ("macos").data,
  ("unix").data,
  ("ios").data,
  ("android").data,
  ("mobile").data,
  ("web").data,
  ("desktop").data,
  ("cloud").data,
  ("saas").data,
  ("paas").data,
  ("iaas").data,
  ("microservices").data,
  ("serverless").data,
  ("monolith").data]

/-- Curated vocabulary from the source (16 entries). -/
def databasesList : List Str := [
  ("mysql").data,
  ("postgresql").data,
  ("mongodb").data,
  ("redis").data,
  ("cassandra").data,
  ("oracle").data,
  ("sql server").data,
  ("sqlite").data,
  ("dynamodb").data,
  ("elasticsearch").data,
  ("solr").data,
  ("neo4j").data,
  ("couchdb").data,
  ("mariadb").data,
  ("firebase").data,
  ("supabase").data]

/-- Curated vocabulary from the source (15 entries). -/
def methodologiesList : List Str := [
  ("agile").data,
  ("scrum").data,
  ("kanban").data,
  ("waterfall").data,
  ("devops").data,
  ("ci/cd").data,
  ("tdd").data,
  ("bdd").data,
  ("pair programming").data,
  ("code review").data,
  ("microservices").data,
  ("rest").data,
  ("soap").data,
  ("graphql").data,
  ("api design").data]

/-- Curated vocabulary from the source (8 entries). -/
def softSkillsList : List Str := [
  ("leadership").data,
  ("communication").data,
  ("teamwork").data,
  ("collaboration").data,
  ("problem-solving").data,
  ("analytical").data,
  ("critical thinking").data,
  ("adaptability").data]

/-- Curated vocabulary from the source (477 entries). -/
def commonWordsList : List Str := [
  ("the").data,
  ("be").data,
  ("to").data,
  ("of").data,
  ("and").data,
  ("a").data,
  ("in").data,
  ("that").data,
  ("have").data,
  ("i").data,
  ("it").data,
  ("for").data,
  ("not").data,
  ("on").data,
  ("with").data,
  ("he").data,
  ("as").data,
  ("you").data,
  ("do").data,
  ("at").data,
  ("this").data,
  ("but").data,
  ("his").data,
  ("by").data,
  ("from").data,
  ("they").data,
  ("we").data,
  ("say").data,
  ("her").data,
  ("she").data,
  ("or").data,
  ("an").data,
  ("will").data,
  ("my").data,
  ("one").data,
  ("all").data,
  ("would").data,
  ("there").data,
  ("their").data,
  ("what").data,
  ("so").data,
  ("up").data,
  ("out").data,
  ("if").data,
  ("about").data,
  ("who").data,
  ("get").data,
  ("which").data,
  ("go").data,
  ("me").data,
  ("when").data,
  ("make").data,
  ("can").data,
  ("like").data,
  ("time").data,
  ("no").data,
  ("just").data,
  ("him").data,
  ("know").data,
  ("take").data,
  ("people").data,
  ("into").data,
  ("year").data,
  ("your").data,
  ("good").data,
  ("some").data,
  ("could").data,
  ("them").data,
  ("see").data,
  ("other").data,
  ("than").data,
  ("then").data,
  ("now").data,
  ("look").data,
  ("only").data,
  ("come").data,
  ("its").data,
  ("over").data,
  ("think").data,
  ("also").data,
  ("back").data,
  ("after").data,
  ("use").data,
  ("two").data,
  ("how").data,
  ("our").data,
  ("work").data,
  ("first").data,
  ("well").data,
  ("way").data,
  ("even").data,
  ("new").data,
  ("want").data,
  ("because").data,
  ("any").data,
  ("these").data,
  ("give").data,
  ("day").data,
  ("most").data,
  ("us").data,
  ("is").data,
  ("are").data,
  ("was").data,
  ("were").data,
  ("been").data,
  ("being").data,
  ("has").data,
  ("had").data,
  ("does").data,
  ("did").data,
  ("doing").data,
  ("done").data,
  ("said").data,
  ("says").data,
  ("saying").data,
  ("went").data,
  ("goes").data,
  ("going").data,
  ("gone").data,
  ("got").data,
  ("gotten").data,
  ("getting").data,
  ("came").data,
  ("comes").data,
  ("coming").data,
  ("made").data,
  ("makes").data,
  ("making").data,
  ("took").data,
  ("takes").data,
  ("taking").data,
  ("saw").data,
  ("sees").data,
  ("seeing").data,
  ("seen").data,
  ("found").data,
  ("finds").data,
  ("finding").data,
  ("gave").data,
  ("gives").data,
  ("giving").data,
  ("given").data,
  ("told").data,
  ("tells").data,
  ("telling").data,
  ("asked").data,
  ("asks").data,
  ("asking").data,
  ("worked").data,
  ("works").data,
  ("working").data,
  ("called").data,
  ("calls").data,
  ("calling").data,
  ("tried").data,
  ("tries").data,
  ("trying").data,
  ("needed").data,
  ("needs").data,
  ("needing").data,
  ("wanted").data,
  ("wants").data,
  ("wanting").data,
  ("seemed").data,
  ("seems").data,
  ("seeming").data,
  ("helped").data,
  ("helps").data,
  ("helping").data,
  ("showed").data,
  ("shows").data,
  ("showing").data,
  ("shown").data,
  ("moved").data,
  ("moves").data,
  ("moving").data,
  ("lived").data,
  ("lives").data,
  ("living").data,
  ("turned").data,
  ("turns").data,
  ("turning").data,
  ("started").data,
  ("starts").data,
  ("starting").data,
  ("stopped").data,
  ("stops").data,
  ("stopping").data,
  ("opened").data,
  ("opens").data,
  ("opening").data,
  ("closed").data,
  ("closes").data,
  ("closing").data,
  ("walked").data,
  ("walks").data,
  ("walking").data,
  ("ran").data,
  ("runs").data,
  ("running").data,
  ("played").data,
  ("plays").data,
  ("playing").data,
  ("studied").data,
  ("studies").data,
  ("studying").data,
  ("learned").data,
  ("learns").data,
  ("learning").data,
  ("taught").data,
  ("teaches").data,
  ("teaching").data,
  ("thought").data,
  ("thinks").data,
  ("thinking").data,
  ("brought").data,
  ("brings").data,
  ("bringing").data,
  ("bought").data,
  ("buys").data,
  ("buying").data,
  ("fought").data,
  ("fights").data,
  ("fighting").data,
  ("caught").data,
  ("catches").data,
  ("catching").data,
  ("chose").data,
  ("chooses").data,
  ("choosing").data,
  ("chosen").data,
  ("fell").data,
  ("falls").data,
  ("falling").data,
  ("felt").data,
  ("feels").data,
  ("feeling").data,
  ("flew").data,
  ("flies").data,
  ("flying").data,
  ("forgot").data,
  ("forgets").data,
  ("forgetting").data,
  ("forgotten").data,
  ("forgave").data,
  ("forgives").data,
  ("forgiving").data,
  ("forgiven").data,
  ("froze").data,
  ("freezes").data,
  ("freezing").data,
  ("frozen").data,
  ("got").data,
  ("gets").data,
  ("getting").data,
  ("gotten").data,
  ("gave").data,
  ("gives").data,
  ("giving").data,
  ("given").data,
  ("went").data,
  ("goes").data,
  ("going").data,
  ("gone").data,
  ("grew").data,
  ("grows").data,
  ("growing").data,
  ("grown").data,
  ("hung").data,
  ("hangs").data,
  ("hanging").data,
  ("heard").data,
  ("hears").data,
  ("hearing").data,
  ("held").data,
  ("holds").data,
  ("holding").data,
  ("hid").data,
  ("hides").data,
  ("hiding").data,
  ("hidden").data,
  ("hit").data,
  ("hits").data,
  ("hitting").data,
  ("hurt").data,
  ("hurts").data,
  ("hurting").data,
  ("kept").data,
  ("keeps").data,
  ("keeping").data,
  ("knew").data,
  ("knows").data,
  ("knowing").data,
  ("known").data,
  ("laid").data,
  ("lays").data,
  ("laying").data,
  ("led").data,
  ("leads").data,
  ("leading").data,
  ("left").data,
  ("leaves").data,
  ("leaving").data,
  ("lent").data,
  ("lends").data,
  ("lending").data,
  ("let").data,
  ("lets").data,
  ("letting").data,
  ("lay").data,
  ("lies").data,
  ("lying").data,
  ("lain").data,
  ("lost").data,
  ("loses").data,
  ("losing").data,
  ("made").data,
  ("makes").data,
  ("making").data,
  ("meant").data,
  ("means").data,
  ("meaning").data,
  ("met").data,
  ("meets").data,
  ("meeting").data,
  ("paid").data,
  ("pays").data,
  ("paying").data,
  ("put").data,
  ("puts").data,
  ("putting").data,
  ("read").data,
  ("reads").data,
  ("reading").data,
  ("rode").data,
  ("rides").data,
  ("riding").data,
  ("ridden").data,
  ("rang").data,
  ("rings").data,
  ("ringing").data,
  ("rung").data,
  ("rose").data,
  ("rises").data,
  ("rising").data,
  ("risen").data,
  ("ran").data,
  ("runs").data,
  ("running").data,
  ("said").data,
  ("says").data,
  ("saying").data,
  ("saw").data,
  ("sees").data,
  ("seeing").data,
  ("seen").data,
  ("sold").data,
  ("sells").data,
  ("selling").data,
  ("sent").data,
  ("sends").data,
  ("sending").data,
  ("set").data,
  ("sets").data,
  ("setting").data,
  ("shook").data,
  ("shakes").data,
  ("shaking").data,
  ("shaken").data,
  ("shone").data,
  ("shines").data,
  ("shining").data,
  ("shone").data,
  ("shot").data,
  ("shots").data,
  ("shooting").data,
  ("showed").data,
  ("shows").data,
  ("showing").data,
  ("shown").data,
  ("shut").data,
  ("shuts").data,
  ("shutting").data,
  ("sang").data,
  ("sings").data,
  ("singing").data,
  ("sung").data,
  ("sank").data,
  ("sinks").data,
  ("sinking").data,
  ("sunk").data,
  ("sat").data,
  ("sits").data,
  ("sitting").data,
  ("slept").data,
  ("sleeps").data,
  ("sleeping").data,
  ("slid").data,
  ("slides").data,
  ("sliding").data,
  ("spoke").data,
  ("speaks").data,
  ("speaking").data,
  ("spoken").data,
  ("spent").data,
  ("spends").data,
  ("spending").data,
  ("spread").data,
  ("spreads").data,
  ("spreading").data,
  ("sprang").data,
  ("springs").data,
  ("springing").data,
  ("sprung").data,
  ("stood").data,
  ("stands").data,
  ("standing").data,
  ("stole").data,
  ("steals").data,
  ("stealing").data,
  ("stolen").data,
  ("stuck").data,
  ("sticks").data,
  ("sticking").data,
  ("stung").data,
  ("stings").data,
  ("stinging").data,
  ("struck").data,
  ("strikes").data,
  ("striking").data,
  ("struck").data,
  ("swam").data,
  ("swims").data,
  ("swimming").data,
  ("swum").data,
  ("swung").data,
  ("swings").data,
  ("swinging").data,
  ("took").data,
  ("takes").data,
  ("taking").data,
  ("taken").data,
  ("taught").data,
  ("teaches").data,
  ("teaching").data,
  ("tore").data,
  ("tears").data,
  ("tearing").data,
  ("torn").data,
  ("told").data,
  ("tells").data,
  ("telling").data,
  ("thought").data,
  ("thinks").data,
  ("thinking").data,
  ("threw").data,
  ("throws").data,
  ("throwing").data,
  ("thrown").data,
  ("understood").data,
  ("understands").data,
  ("understanding").data,
  ("woke").data,
  ("wakes").data,
  ("waking").data,
  ("woken").data,
  ("wore").data,
  ("wears").data,
  ("wearing").data,
  ("worn").data,
  ("won").data,
  ("wins").data,
  ("winning").data,
  ("wrote").data,
  ("writes").data,
  ("writing").data,
  ("written").data]

/-- Curated vocabulary from the source (59 entries). -/
def compoundTermsList : List Str := [
  ("machine learning").data,
  ("deep learning").data,
  ("artificial intelligence").data,
  ("ai").data,
  ("ml").data,
  ("dl").data,
  ("cloud computing").data,
  ("cloud services").data,
  ("cloud infrastructure").data,
  ("data science").data,
  ("data analytics").data,
  ("big data").data,
  ("data engineering").data,
  ("software engineering").data,
  ("software development").data,
  ("web development").data,
  ("mobile development").data,
  ("ios development").data,
  ("android development").data,
  ("full stack").data,
  ("frontend").data,
  ("front end").data,
  ("backend").data,
  ("back end").data,
  ("devops").data,
  ("site reliability").data,
  ("sre").data,
  ("infrastructure as code").data,
  ("test driven development").data,
  ("tdd").data,
  ("behavior driven development").data,
  ("bdd").data,
  ("continuous integration").data,
  ("continuous deployment").data,
  ("ci/cd").data,
  ("application programming interface").data,
  ("rest api").data,
  ("graphql api").data,
  ("user interface").data,
  ("ui").data,
  ("user experience").data,
  ("ux").data,
  ("responsive design").data,
  ("progressive web app").data,
  ("pwa").data,
  ("object oriented programming").data,
  ("oop").data,
  ("functional programming").data,
  ("microservices architecture").data,
  ("service oriented architecture").data,
  ("soa").data,
  ("domain driven design").data,
  ("ddd").data,
  ("model view controller").data,
  ("mvc").data,
  ("representational state transfer").data,
  ("rest").data,
  ("simple object access protocol").data,
  ("soap").data]

/-- Curated vocabulary from the source (16 entries). -/
def educationLevelsList : List Str := [
  ("bachelor").data,
  ("bachelor").data ++ [apos] ++ ("s").data,
  ("bachelor of science").data,
  ("bs").data,
  ("bsc").data,
  ("master").data,
  ("master").data ++ [apos] ++ ("s").data,
  ("master of science").data,
  ("ms").data,
  ("msc").data,
  ("phd").data,
  ("doctorate").data,
  ("mba").data,
  ("btech").data,
  ("mtech").data,
  ("degree").data]

/-- The language regex from the source: word-bounded occurrence, or the
term followed by ".js", or the term followed by "script" (this last
alternative is what makes "java" match inside "javascript"). -/
def ciLitL (t : Str) : RE :=
  RE.ofList (t.map (fun c => RE.cls (fun x => x.toLower = c.toLower)))

def wordREL (t : Str) : RE := .seq .wb (.seq (ciLitL t) .wb)

def langRE (t : Str) : RE :=
  .alt (wordREL t) (.alt (ciLitL (t ++ (".js").data)) (ciLitL (t ++ ("script").data)))

def extractProgrammingLanguages (text : Str) : List Str :=
  languagesList.filter (fun l => reTest (langRE l) text)

def extractFrameworks (text : Str) : List Str :=
  frameworksList.filter (fun t => reTest (wordREL t) text)

def extractTools (text : Str) : List Str :=
  toolsList.filter (fun t => reTest (wordREL t) text)

def extractPlatforms (text : Str) : List Str :=
  platformsList.filter (fun t => reTest (wordREL t) text)

def extractDatabases (text : Str) : List Str :=
  databasesList.filter (fun t => reTest (wordREL t) text)

def extractMethodologies (text : Str) : List Str :=
  methodologiesList.filter (fun t => reTest (wordREL t) text)

def extractSoftSkillsT (text : Str) : List Str :=
  softSkillsList.filter (fun t => reTest (wordREL t) text)

def extractEducationRequirementsT (text : Str) : List Str :=
  educationLevelsList.filter (fun t => reTest (wordREL t) text)

/-- Certification patterns of the technical extractor.  The first five
regexes are non-global (their first match is pushed), the last one
carries the g flag (every match is pushed). -/
def certPat1 : RE := RE.ofList [ciLit ("aws"), RE.plus reWs, ciLit ("certified")]
def certPat2 : RE := RE.ofList [ciLit ("azure"), RE.plus reWs, ciLit ("certified")]
def certPat3 : RE :=
  RE.ofList [ciLit ("google"), RE.plus reWs, ciLit ("cloud"), RE.plus reWs, ciLit ("certified")]
def certPat4 : RE := RE.ofList [ciLit ("pmp"), RE.plus reWs, ciLit ("certified")]
def certPat5 : RE := RE.ofList [ciLit ("scrum"), RE.plus reWs, ciLit ("master")]
def certPat6 : RE :=
  RE.ofList [ciLit ("certified"), RE.plus reWs,
    RE.plus (.cls (fun c => isAlphaChar c || wsChar c))]

def extractCertificationsT (text : Str) : List Str :=
  let nonGlobal := ([certPat1, certPat2, certPat3, certPat4, certPat5].filterMap
    (fun p => reFirst p text)).map trimChars
  let global := (reGlobal certPat6 text).map trimChars
  firstDedup (nonGlobal ++ global)

/-- Experience requirement record ("type" is always the string "years"). -/
structure ExpReq where
  value : Nat
  text : Str
deriving DecidableEq

def ciYears : RE := .seq (ciLit ("year")) (RE.opt (ciChr ('s')))
def ciYrs : RE := .seq (ciLit ("yr")) (RE.opt (ciChr ('s')))

def expPat1 : RE :=
  RE.ofList [RE.plus reDigit, RE.opt (chrR ('+')), RE.star reWs,
    RE.alt ciYears ciYrs, RE.plus reWs,
    RE.opt (.seq (ciLit ("of")) (RE.plus reWs)),
    RE.alt (ciLit ("experience")) (ciLit ("exp"))]

def expPat2 : RE :=
  RE.ofList [ciLit ("minimum"), RE.plus reWs, RE.plus reDigit, RE.plus reWs,
    RE.alt ciYears ciYrs]

def expPat3 : RE :=
  RE.ofList [RE.plus reDigit, RE.star reWs, chrR ('-'), RE.star reWs,
    RE.plus reDigit, RE.plus reWs, RE.alt ciYears ciYrs]

/-- Capture group 1 of the experience patterns is the first digit run of
the whole match. -/
def parseFirstInt (m : Str) : Nat :=
  parseNatDigits (m.dropWhile (fun c => !c.isDigit))

def extractExperienceRequirements (text : Str) : List ExpReq :=
  ([expPat1, expPat2, expPat3].map (fun p => reGlobal p text)).flatten.map
    (fun m => { value := parseFirstInt m, text := m })

/-- Is the (lowercased) word in the source's large common-English list? -/
def isCommonWord (w : Str) : Bool := commonWordsList.contains w

/-- Capitalised word groups (case-sensitive, global). -/
def capitalizedRE : RE :=
  RE.ofList [.wb, .cls isUpperAZ, RE.plus (.cls isLowerAZ),
    RE.star (RE.ofList [RE.plus reWs, .cls isUpperAZ, RE.plus (.cls isLowerAZ)]), .wb]

def extractCompoundTechnicalTerms (text : Str) : List Str :=
  compoundTermsList.filter (fun t => reTest (wordREL t) text)

/-- Technical keyword extraction.  The source also tokenizes the text and
removes stopwords into a local variable that is never read afterwards;
that dead computation is omitted here. -/
def extractTechnicalKeywords (text : Str) (knownTechnicalTerms : List Str) : List Str :=
  let caps := reGlobal capitalizedRE text
  let capsAdded := (caps.filter
    (fun t => t.length > 2 && !isCommonWord (lower t))).map lower
  let technicalTerms := firstDedup (knownTechnicalTerms.map lower ++ capsAdded)
  let foundTerms := technicalTerms.filter (fun t => reTest (wordREL t) text)
  firstDedup (foundTerms ++ extractCompoundTechnicalTerms text)

structure TechCategories where
  programmingLanguages : List Str
  frameworks : List Str
  tools : List Str
  platforms : List Str
  databases : List Str
  methodologies : List Str
  certifications : List Str
  softSkills : List Str
  experience : List ExpReq
  education : List Str
deriving DecidableEq

structure TechSummary where
  totalTechnicalTerms : Nat
  programmingLanguages : Nat
  frameworks : Nat
  tools : Nat
  platforms : Nat
  databases : Nat
deriving DecidableEq

structure TechnicalRequirements where
  categories : TechCategories
  technicalKeywords : List Str
  allTechnicalTerms : List Str
  summary : TechSummary
deriving DecidableEq

def extractTechnicalRequirements (jobDescription : Str) : TechnicalRequirements :=
  let text := lower jobDescription
  let cats : TechCategories :=
    { programmingLanguages := extractProgrammingLanguages text
      frameworks := extractFrameworks text
      tools := extractTools text
      platforms := extractPlatforms text
      databases := extractDatabases text
      methodologies := extractMethodologies text
      certifications := extractCertificationsT text
      softSkills := extractSoftSkillsT text
      experience := extractExperienceRequirements text
      education := extractEducationRequirementsT text }
  let allDup := cats.programmingLanguages ++ cats.frameworks ++ cats.tools ++
    cats.platforms ++ cats.databases ++ cats.methodologies
  { categories := cats
    technicalKeywords := extractTechnicalKeywords jobDescription allDup
    allTechnicalTerms := firstDedup allDup
    summary :=
      { totalTechnicalTerms := (firstDedup allDup).length
        programmingLanguages := cats.programmingLanguages.length
        frameworks := cats.frameworks.length
        tools := cats.tools.length
        platforms := cats.platforms.length
        databases := cats.databases.length } }

/-! ## Technical matcher (backend technicalMatcher module) -/

/-- One row step of the Levenshtein DP matrix of the source:
`prev` is the previous row, `left` the value just computed in this row. -/
def levRowGo (c2 : Char) : Str → List Nat → Nat → List Nat
  | [], _, _ => []
  | c1 :: cs, prev, left =>
    match prev with
    | [] => []
    | pd :: ptail =>
      let up := ptail.headD pd
      let cur := if c2 = c1 then pd else 1 + Nat.min pd (Nat.min left up)
      cur :: levRowGo c2 cs ptail cur

/-- Levenshtein distance via the source's row-by-row matrix. -/
def levenshteinDistance (str1 str2 : Str) : Nat :=
  let row0 := List.range (str1.length + 1)
  let final := str2.foldl (fun (acc : List Nat × Nat) c2 =>
    let i := acc.2 + 1
    (i :: levRowGo c2 str1 acc.1 i, i)) (row0, 0)
  final.1.getLastD 0

/-- Length of the common initial segment, capped at `n` characters. -/
def commonStartLen : Nat → Str → Str → Nat
  | 0, _, _ => 0
  | _ + 1, [], _ => 0
  | _ + 1, _, [] => 0
  | n + 1, a :: as, b :: bs => if a = b then 1 + commonStartLen n as bs else 0

/-- String similarity of the source: 1 - distance/maxLen plus a common
prefix bonus of 0.1 per shared initial character (up to 4), capped at 1. -/
def calculateStringSimilarity (str1 str2 : Str) : ℚ :=
  if str1 = str2 then 1
  else if str1.length = 0 || str2.length = 0 then 0
  else
    let bonus := commonStartLen 4 str1 str2
    let longerLen := if str1.length > str2.length then str1.length else str2.length
    if longerLen = 0 then 1
    else
      let distance := levenshteinDistance str1 str2
      let similarity : ℚ := 1 - (distance : ℚ) / (longerLen : ℚ)
      min 1 (similarity + (bonus : ℚ) * (1/10))

/-- Fuzzy match: best candidate at similarity at least 0.7, else the first
candidate in a substring relation (fixed confidence 0.8). -/
def findFuzzyMatch (term : Str) (candidateTerms : List Str) : Option (Str × ℚ) :=
  let best := candidateTerms.foldl (fun (acc : Option (Str × ℚ) × ℚ) c =>
    let s := calculateStringSimilarity term c
    if s > acc.2 && s ≥ 7/10 then (some (c, s), s) else acc) (none, 0)
  match best.1 with
  | some m => some m
  | none =>
    (candidateTerms.find? (fun c => containsSub term c || containsSub c term)).map
      (fun c => (c, 4/5))

structure MatchRec where
  job : Str
  resume : Str
  matchType : Str
  confidence : ℚ

structure CategoryMatch where
  matched : List MatchRec
  missing : List Str
  matchRate : ℚ

/-- Per-category matching: exact (case-insensitive) first, then fuzzy;
otherwise the job term is missing. -/
def mcStep (resumeLower : List Str) (acc : List MatchRec × List Str)
    (jobItem : Str) : List MatchRec × List Str :=
  if resumeLower.contains (lower jobItem) then
    (acc.1 ++ [{ job := jobItem, resume := jobItem,
                 matchType := ("exact").data, confidence := 1 }], acc.2)
  else
    match findFuzzyMatch (lower jobItem) resumeLower with
    | some fm =>
      (acc.1 ++ [{ job := jobItem, resume := fm.1,
                   matchType := ("fuzzy").data, confidence := fm.2 }], acc.2)
    | none => (acc.1, acc.2 ++ [jobItem])

def matchCategory (jobItems resumeItems : List Str) : CategoryMatch :=
  let acc := jobItems.foldl (mcStep (resumeItems.map lower)) (([]), ([]))
  { matched := acc.1
    missing := acc.2
    matchRate := if jobItems.length > 0 then
        ((acc.1.length : ℚ) / (jobItems.length : ℚ)) * 100
      else 0 }

structure MissingItem where
  rtype : Str
  term : Str
deriving DecidableEq

structure MissingRequirements where
  critical : List MissingItem
  important : List MissingItem
  niceToHave : List MissingItem
deriving DecidableEq

/-- Missing requirements: unmatched languages are critical, unmatched
frameworks important, unmatched tools nice to have (exact comparison
only — no fuzzy matching here). -/
def findMissingRequirements (jobTechnical resumeTechnical : TechnicalRequirements) :
    MissingRequirements :=
  { critical := (jobTechnical.categories.programmingLanguages.filter (fun lang =>
      !resumeTechnical.categories.programmingLanguages.any
        (fun r => lower r == lower lang))).map
      (fun lang => { rtype := ("programmingLanguage").data, term := lang })
    important := (jobTechnical.categories.frameworks.filter (fun fw =>
      !resumeTechnical.categories.frameworks.any (fun r => lower r == lower fw))).map
      (fun fw => { rtype := ("framework").data, term := fw })
    niceToHave := (jobTechnical.categories.tools.filter (fun tool =>
      !resumeTechnical.categories.tools.any (fun r => lower r == lower tool))).map
      (fun tool => { rtype := ("tool").data, term := tool }) }

/-! ## Advanced NLP (backend advancedNLP module)

The tokenizer, the stopword list and the stemmer live in external
libraries (natural, stopword); they are modelled from the spec below. -/

/-- Modelled from the spec: standard English stopword list ("Remove a
fixed stopword list (standard English stopwords)"); the library list of
the stopword package is external to the repository. -/
def stopwordsList : List Str := [
  ("a").data, ("about").data, ("above").data, ("after").data, ("again").data,
  ("against").data, ("all").data, ("am").data, ("an").data, ("and").data,
  ("any").data, ("are").data, ("as").data, ("at").data, ("be").data,
  ("because").data, ("been").data, ("before").data, ("being").data, ("below").data,
  ("between").data, ("both").data, ("but").data, ("by").data, ("could").data,
  ("did").data, ("do").data, ("does").data, ("doing").data, ("down").data,
  ("during").data, ("each").data, ("few").data, ("for").data, ("from").data,
  ("further").data, ("had").data, ("has").data, ("have").data, ("having").data,
  ("he").data, ("her").data, ("here").data, ("hers").data, ("herself").data,
  ("him").data, ("himself").data, ("his").data, ("how").data, ("i").data,
  ("if").data, ("in").data, ("into").data, ("is").data, ("it").data,
  ("its").data, ("itself").data, ("just").data, ("me").data, ("more").data,
  ("most").data, ("my").data, ("myself").data, ("no").data, ("nor").data,
  ("not").data, ("now").data, ("of").data, ("off").data, ("on").data,
  ("once").data, ("only").data, ("or").data, ("other").data, ("our").data,
  ("ours").data, ("ourselves").data, ("out").data, ("over").data, ("own").data,
  ("same").data, ("she").data, ("should").data, ("so").data, ("some").data,
  ("such").data, ("than").data, ("that").data, ("the").data, ("their").data,
  ("theirs").data, ("them").data, ("themselves").data, ("then").data, ("there").data,
  ("these").data, ("they").data, ("this").data, ("those").data, ("through").data,
  ("to").data, ("too").data, ("under").data, ("until").data, ("up").data,
  ("very").data, ("was").data, ("we").data, ("were").data, ("what").data,
  ("when").data, ("where").data, ("which").data, ("while").data, ("who").data,
  ("whom").data, ("why").data, ("will").data, ("with").data, ("you").data,
  ("your").data, ("yours").data, ("yourself").data, ("yourselves").data]

/-- Modelled from the spec: tokenize on word boundaries ("Tokenize on word
boundaries, lowercase") for the external WordTokenizer — maximal runs of
word characters of the lowercased text. -/
def tokenizeGo : Str → Str → List Str
  | cur, [] => if cur.isEmpty then [] else [cur.reverse]
  | cur, c :: rest =>
    if wordChar c then tokenizeGo (c :: cur) rest
    else if cur.isEmpty then tokenizeGo ([]) rest
    else cur.reverse :: tokenizeGo ([]) rest

def tokenizeWords (s : Str) : List Str := tokenizeGo ([]) s

def isVowel (c : Char) : Bool :=
  c = ('a') || c = ('e') || c = ('i') || c = ('o') || c = ('u')

def endsWithStr (s suf : Str) : Bool := startsWith s.reverse suf.reverse

def dropSuf (s : Str) (n : Nat) : Str := s.take (s.length - n)

/-- Modelled from the spec: Porter-style stemming ("Stem remaining
unigrams (Porter-style stemming)") for the external PorterStemmer —
plural reduction (step 1a) and vowel-guarded ing/ed stripping (step 1b).
No theorem below depends on the stemmer beyond it being a function. -/
def porterStem (w : Str) : Str :=
  let w1 :=
    if endsWithStr w (("sses").data) then dropSuf w 2
    else if endsWithStr w (("ies").data) then dropSuf w 2
    else if endsWithStr w (("ss").data) then w
    else if endsWithStr w (("s").data) then dropSuf w 1
    else w
  if endsWithStr w1 (("ing").data) && (dropSuf w1 3).any isVowel then dropSuf w1 3
  else if endsWithStr w1 (("ed").data) && (dropSuf w1 2).any isVowel then dropSuf w1 2
  else w1

structure Processed where
  unigrams : List Str
  bigrams : List Str
  trigrams : List Str
  originalTokens : List Str

def bigramsOf (toks : List Str) : List Str :=
  (toks.zip toks.tail).map (fun p => p.1 ++ (' ') :: p.2)

def trigramsOf (toks : List Str) : List Str :=
  (toks.zip (toks.tail.zip toks.tail.tail)).map
    (fun p => p.1 ++ (' ') :: p.2.1 ++ (' ') :: p.2.2)

/-- Preprocessing: lowercase, tokenize, drop stopwords; unigrams are the
stemmed tokens while the n-grams are built from the unstemmed tokens. -/
def advancedPreprocessText (text : Str) : Processed :=
  let toks := (tokenizeWords (lower text)).filter (fun t => !stopwordsList.contains t)
  { unigrams := toks.map porterStem
    bigrams := bigramsOf toks
    trigrams := trigramsOf toks
    originalTokens := toks }

/-- The set (in JS `Set` order) of stemmed unigrams and raw bigrams. -/
def simSet (p : Processed) : List Str := firstDedup (p.unigrams ++ p.bigrams)

/-- Jaccard ratio of two JS sets (intersection size over union size,
zero when the union is empty). -/
def jaccardOf (s1 s2 : List Str) : ℚ :=
  if (firstDedup (s1 ++ s2)).length > 0 then
    ((s1.filter (fun x => s2.contains x)).length : ℚ) /
      ((firstDedup (s1 ++ s2)).length : ℚ)
  else 0

/-- Jaccard similarity over unigrams and bigrams together. -/
def jaccardSim (text1 text2 : Str) : ℚ :=
  jaccardOf (simSet (advancedPreprocessText text1))
    (simSet (advancedPreprocessText text2))

/-- Vector component of the cosine similarity: unigram count plus half the
number of bigrams containing the term as a substring. -/
def cosineComp (p : Processed) (term : Str) : ℚ :=
  ((p.unigrams.filter (fun w => w == term)).length : ℚ) +
  ((p.bigrams.filter (fun bg => containsSub bg term)).length : ℚ) * (1/2)

/-- The combined vocabulary: unigrams of both texts, deduplicated. -/
def cosineTerms (text1 text2 : Str) : List Str :=
  firstDedup ((advancedPreprocessText text1).unigrams ++
    (advancedPreprocessText text2).unigrams)

def cosineVectors (text1 text2 : Str) : List ℚ × List ℚ :=
  ((cosineTerms text1 text2).map (cosineComp (advancedPreprocessText text1)),
   (cosineTerms text1 text2).map (cosineComp (advancedPreprocessText text2)))

def dotProduct (v1 v2 : List ℚ) : ℚ := (List.zipWith (· * ·) v1 v2).sum

def magSq (v : List ℚ) : ℚ := (v.map (fun x => x * x)).sum

/-- Cosine similarity.  The source computes both magnitudes with `sqrt`
and returns 0 when either is falsy; since the square root of a
nonnegative number is zero exactly when the number is, the guard is
stated on the squared magnitudes. -/
noncomputable def cosineSim (text1 text2 : Str) : ℝ :=
  if magSq (cosineVectors text1 text2).1 = 0 ∨ magSq (cosineVectors text1 text2).2 = 0
  then 0
  else (dotProduct (cosineVectors text1 text2).1 (cosineVectors text1 text2).2 : ℝ) /
    (Real.sqrt (magSq (cosineVectors text1 text2).1) *
      Real.sqrt (magSq (cosineVectors text1 text2).2))

/-- Jaccard similarity restricted to the bigram sets. -/
def bigramOverlapSim (text1 text2 : Str) : ℚ :=
  jaccardOf (firstDedup (advancedPreprocessText text1).bigrams)
    (firstDedup (advancedPreprocessText text2).bigrams)

/-- Combined similarity: 0.3 jaccard + 0.5 cosine + 0.2 bigram overlap. -/
noncomputable def combinedSim (text1 text2 : Str) : ℝ :=
  (jaccardSim text1 text2 : ℝ) * (3/10) + cosineSim text1 text2 * (1/2) +
    (bigramOverlapSim text1 text2 : ℝ) * (1/5)

/-! ## Keyword extraction and weighted keyword match -/

structure Keyword where
  term : Str
  importance : ℚ

/-- Stable insertion into a descending-sorted list: the new element goes
before the first element whose key is not larger, so that when the
original head is inserted into the sorted tail, ties keep list order. -/
def insertDescBy (key : α → Nat) (x : α) : List α → List α
  | [] => [x]
  | y :: ys => if key x ≥ key y then x :: y :: ys else y :: insertDescBy key x ys

/-- Stable sort, descending by key (ties keep list order), matching a JS
stable `sort` with a score-difference comparator. -/
def sortDescBy (key : α → Nat) : List α → List α
  | [] => []
  | x :: xs => insertDescBy key x (sortDescBy key xs)

def termCounts (tokens : List Str) : List (Str × Nat) :=
  (firstDedup tokens).map (fun t => (t, (tokens.filter (fun x => x == t)).length))

/-- Modelled from the spec: keyword extraction via the external TfIdf
("single-document TF-IDF (i.e., term frequency only ...) sorted
descending, top-N by a configurable count; importance normalized ... by a
fixed multiplier").  With a single document the idf factor is the same
constant for every term, so the score order is the term-frequency order
and the constant is absorbed into the fixed multiplier. -/
def rankedTerms (text : Str) (count : Nat) : List (Str × Nat) :=
  (sortDescBy (fun p => p.2) (termCounts (tokenizeWords (lower text)))).take count

def extractAdvancedKeywords (text : Str) (count : Nat := 30) : List Keyword :=
  (rankedTerms text count).map (fun p => { term := p.1, importance := (p.2 : ℚ) * 100 })

/-- The configured keyword count (KEYWORD_COUNT defaulting to 30). -/
def atsKeywordCount : Nat := 30

/-- Is there an exact entry for the job term in the resume keyword map? -/
def kwHasExact (resumeKwMap : List (Str × ℚ)) (jobTerm : Str) : Bool :=
  resumeKwMap.any (fun p => p.1 == jobTerm)

/-- Is some resume keyword in a substring relation with the job term?
The source iterates the map entries and breaks at the first related one;
only existence is used, so this is the same test. -/
def kwHasPartial (resumeKwMap : List (Str × ℚ)) (jobTerm : Str) : Bool :=
  resumeKwMap.any (fun p => containsSub jobTerm p.1 || containsSub p.1 jobTerm)

/-- One job keyword's contribution to the matched weight. -/
def wkmStep (resumeKwMap : List (Str × ℚ)) (acc : ℚ) (jobKw : Keyword) : ℚ :=
  let jobTerm := lower jobKw.term
  if kwHasExact resumeKwMap jobTerm then acc + jobKw.importance
  else if kwHasPartial resumeKwMap jobTerm then acc + jobKw.importance * (7/10)
  else acc

/-- Weighted keyword match: an exact match contributes the job keyword's
full importance, a partial (substring) match 70% of it, a miss nothing;
the result is matched weight over total weight times 100.  (A JS `Map`
collapses duplicate keys; `has` and the existence of a related key are
unaffected by that, which is all the loop reads.) -/
def calculateWeightedKeywordMatch (resumeKeywords jobKeywords : List Keyword) : ℚ :=
  if resumeKeywords.isEmpty || jobKeywords.isEmpty then 0
  else
    let resumeKwMap := resumeKeywords.map (fun k => (lower k.term, k.importance))
    let totalWeight := (jobKeywords.map (fun k => k.importance)).sum
    let matchedWeight := jobKeywords.foldl (wkmStep resumeKwMap) 0
    if totalWeight > 0 then matchedWeight / totalWeight * 100 else 0

/-! ## Experience match and multi-factor aggregation (advanced scoring module) -/

/-- The job-side years regex of the scoring module. -/
def expJobRE : RE :=
  RE.ofList [RE.plus reDigit, RE.opt (chrR ('+')), RE.star reWs,
    RE.altList [lit ("year"), lit ("yr"), lit ("years")]]

/-- The resume-side years regex of the scoring module. -/
def expResumeRE : RE :=
  RE.ofList [RE.plus reDigit, RE.opt (chrR ('+')), RE.star reWs,
    RE.altList [lit ("year"), lit ("yr"), RE.seq (lit ("year")) (RE.opt (chrR ('s')))],
    RE.star reWs, RE.opt (.seq (lit ("of")) (RE.star reWs)),
    RE.alt (lit ("experience")) (lit ("exp"))]

/-- Years required by the job description (0 when the regex fails). -/
def requiredYearsOf (jobDescription : Str) : Nat :=
  match reFirst expJobRE (lower jobDescription) with
  | none => 0
  | some m => parseFirstInt m

/-- Years of experience stated by the resume (0 when the regex fails). -/
def statedYearsOf (resumeText : Str) : Nat :=
  match reFirst expResumeRE (lower resumeText) with
  | none => 0
  | some m => parseFirstInt m

/-- Experience match sub-score. -/
def calculateExperienceMatch (resumeText jobDescription : Str) : ℚ :=
  let requiredYears := requiredYearsOf jobDescription
  if requiredYears = 0 then 1/2
  else
    let resumeYears := statedYearsOf resumeText
    if resumeYears = 0 then 1/5
    else if resumeYears ≥ requiredYears then 1
    else max (1/5) ((resumeYears : ℚ) / (requiredYears : ℚ))

structure FactorScores where
  semanticSimilarity : ℚ
  keywordMatch : ℚ
  skillRelevance : ℚ
  experienceMatch : ℚ
  educationMatch : ℚ

def clamp01 (q : ℚ) : ℚ := min 1 (max 0 q)

/-- The weighted sum of the five normalized factors, scaled to 0-100. -/
def weightedScoreOf (scores : FactorScores) : ℚ :=
  clamp01 scores.semanticSimilarity * (30/100) * 100 +
  clamp01 (scores.keywordMatch / 100) * (35/100) * 100 +
  clamp01 scores.skillRelevance * (20/100) * 100 +
  clamp01 scores.experienceMatch * (10/100) * 100 +
  clamp01 scores.educationMatch * (5/100) * 100

/-- Multi-factor score with the non-linear post-scaling. -/
def calculateMultiFactorScore (scores : FactorScores) : ℤ :=
  let weightedScore := weightedScoreOf scores
  let scaledScore :=
    if weightedScore < 50 then weightedScore * (95/100)
    else if weightedScore < 80 then weightedScore
    else min 100 (weightedScore * (105/100))
  jsRound (min scaledScore 100)

/-! ## Structured resume parsing (backend resumeParser module) -/

structure ContactInfo where
  name : Option Str
  email : Option Str
  phone : Option Str
  address : Option Str
  linkedin : Option Str
  github : Option Str
  website : Option Str
deriving DecidableEq

structure WorkEntry where
  title : Option Str
  company : Option Str
  dates : Option Str
  description : Option (List Str)
deriving DecidableEq

structure EduEntry where
  degree : Option Str
  institution : Option Str
  dates : Option Str
  gpa : Option Str
deriving DecidableEq

structure SkillsRec where
  technical : List Str
  soft : List Str
  tools : List Str
  languages : List Str
deriving DecidableEq

structure ProjectRec where
  name : Str
  description : Option Str
deriving DecidableEq

structure StructuredResume where
  contactInfo : ContactInfo
  workExperience : List WorkEntry
  education : List EduEntry
  skills : SkillsRec
  certifications : List Str
  projects : List ProjectRec
  summary : Option Str
deriving DecidableEq

/-- Character classes of the parser's regexes. -/
def emailLocalC (c : Char) : Bool :=
  isAlphaChar c || c.isDigit || c = ('.') || c = ('_') || c = ('%') || c = ('+') || c = ('-')
def emailDomC (c : Char) : Bool := isAlphaChar c || c.isDigit || c = ('.') || c = ('-')
def emailTldC (c : Char) : Bool := isAlphaChar c || c = ('|')
def phoneSepC (c : Char) : Bool := c = ('-') || c = ('.') || wsChar c
def userC (c : Char) : Bool := isAlphaChar c || c.isDigit || c = ('-')
def companyBodyC (c : Char) : Bool :=
  isAlphaChar c || c.isDigit || wsChar c || c = ('&') || c = ('.') || c = (',') || c = ('-')
def instBodyC (c : Char) : Bool :=
  isAlphaChar c || wsChar c || c = ('&') || c = ('.') || c = (',') || c = ('-')
def alphaWsC (c : Char) : Bool := isAlphaChar c || wsChar c
def wordOrWsC (c : Char) : Bool := wordChar c || wsChar c
def dashC (c : Char) : Bool := c = ('-') || c = ('–') || c = ('—')

def emailRE : RE :=
  RE.ofList [.wb, RE.plus (.cls emailLocalC), chrR ('@'), RE.plus (.cls emailDomC),
    chrR ('.'), .cls emailTldC, .cls emailTldC, RE.star (.cls emailTldC), .wb]

/-- The optional international prefix of the first two phone patterns. -/
def phoneIntl : RE :=
  RE.opt (RE.ofList [RE.opt (chrR ('+')), reDigit, RE.opt reDigit, RE.opt reDigit,
    RE.opt (.cls phoneSepC)])

def d3 : RE := RE.ofList [reDigit, reDigit, reDigit]
def d4 : RE := RE.ofList [reDigit, reDigit, reDigit, reDigit]

def phone1RE : RE :=
  RE.ofList [phoneIntl, RE.opt (chrR ('(')), d3, RE.opt (chrR (')')),
    RE.opt (.cls phoneSepC), d3, RE.opt (.cls phoneSepC), d4]

def phone2RE : RE :=
  RE.ofList [phoneIntl, d3, RE.opt (.cls phoneSepC), d3, RE.opt (.cls phoneSepC), d4]

def phone3RE : RE :=
  RE.ofList [chrR ('('), d3, chrR (')'), RE.opt reWs, d3, RE.opt (.cls phoneSepC), d4]

def linkedinRE : RE :=
  .seq (.alt (ciLit ("linkedin.com/in/")) (ciLit ("linkedin.com/pub/")))
    (RE.plus (.cls userC))

def githubRE : RE := .seq (ciLit ("github.com/")) (RE.plus (.cls userC))

def websiteRE : RE :=
  RE.ofList [RE.opt (RE.ofList [lit ("http"), RE.opt (chrR ('s')), lit ("://")]),
    RE.opt (lit ("www.")), RE.plus (.cls userC), chrR ('.'),
    .cls isAlphaChar, .cls isAlphaChar, RE.star (.cls isAlphaChar)]

/-- One capitalised word: an uppercase letter then lowercase letters. -/
def capWord : RE := .seq (.cls isUpperAZ) (RE.plus (.cls isLowerAZ))

def nameRE : RE :=
  RE.ofList [.bos, capWord, .seq (RE.plus reWs) capWord,
    RE.opt (.seq (RE.plus reWs) capWord)]

def addressRE : RE :=
  RE.ofList [capWord, RE.star (.seq (RE.plus reWs) capWord), RE.opt (chrR (',')),
    RE.plus reWs, .cls isUpperAZ, .cls isUpperAZ, RE.plus reWs,
    reDigit, reDigit, reDigit, reDigit, reDigit]

/-- Group 1 of the linkedin/github regexes: the part after the last slash. -/
def afterLastSlash (m : Str) : Str := (m.reverse.takeWhile (fun c => c != ('/'))).reverse

def extractContactInfo (text : Str) : ContactInfo :=
  let firstLines := joinSep [(' ')] ((splitNl text).take 5)
  let nameM := reFirst nameRE firstLines
  { name := match nameM with
      | some m =>
        if containsSub m (("@").data) || containsSub m (("http").data) then none
        else some (trimChars m)
      | none => none
    email := reFirst emailRE text
    phone := (([phone1RE, phone2RE, phone3RE].filterMap
      (fun p => reFirst p text)).head?).map trimChars
    address := reFirst addressRE text
    linkedin := (reFirst linkedinRE text).map
      (fun m => (("linkedin.com/in/").data) ++ afterLastSlash m)
    github := (reFirst githubRE text).map
      (fun m => (("github.com/").data) ++ afterLastSlash m)
    website := match reFirst websiteRE text with
      | some m =>
        if containsSub m (("linkedin").data) || containsSub m (("github").data) then none
        else some m
      | none => none }

def experienceKeywordsList : List Str :=
  [("experience").data, ("employment").data, ("work history").data,
   ("professional experience").data, ("career").data]

/-- Find the first line containing one of the keywords; return the lines
after it (the source records the index and scans from there). -/
def linesAfterHeading (kws : List Str) : List Str → Option (List Str)
  | [] => none
  | l :: ls =>
    if kws.any (fun k => containsSub (lower l) k) then some ls
    else linesAfterHeading kws ls

def yearRE : RE := RE.ofList [reDigit, reDigit, reDigit, reDigit]

def dateRE : RE :=
  RE.ofList [.alt yearRE (RE.ofList [RE.plus reWord, RE.plus reWs, yearRE]),
    RE.star reWs, .cls dashC, RE.star reWs,
    RE.altList [yearRE, ciLit ("Present"), ciLit ("Current"), ciLit ("Now")]]

def companyRE : RE :=
  RE.ofList [.cls isUpperAZ, RE.plus (.cls companyBodyC),
    RE.opt (RE.altList [lit ("Inc"), lit ("LLC"), lit ("Corp"), lit ("Ltd"),
      lit ("Company"), lit ("Co.")])]

def jobTitleWords : List String :=
  ["Senior", "Junior", "Lead", "Principal", "Staff", "Associate", "Manager",
   "Director", "VP", "President", "Engineer", "Developer", "Designer", "Analyst",
   "Consultant", "Specialist", "Coordinator", "Assistant", "Executive", "Intern"]

def jobTitleRE : RE :=
  RE.ofList [.alt .bos (chrR ('\n')), RE.altList (jobTitleWords.map ciLit),
    RE.plus (.cls wordOrWsC)]

/-- Groups of the date regex: the part before the (single) dash with
trailing whitespace stripped, and the part after it with leading
whitespace stripped.  Neither alternative of a group can contain a dash. -/
def dateGroups (m : Str) : Str × Str :=
  let g1 := ((m.takeWhile (fun c => !dashC c)).reverse.dropWhile wsChar).reverse
  let g2 := ((m.dropWhile (fun c => !dashC c)).drop 1).dropWhile wsChar
  (g1, g2)

/-- One line of the experience-block loop. -/
def weStep (st : List WorkEntry × Option WorkEntry) (line : Str) :
    List WorkEntry × Option WorkEntry :=
  match reFirst dateRE line with
  | some dm =>
    let pushed := match st.2 with
      | some e => st.1 ++ [e]
      | none => st.1
    let g := dateGroups dm
    (pushed, some
      { title := none
        company := (reFirst companyRE line).map trimChars
        dates := some (g.1 ++ (" - ").data ++ g.2)
        description := some ([]) })
  | none =>
    match st.2 with
    | some e =>
      if line.length > 10 then
        if e.title.isNone && line.length < 100 then
          (st.1, some { e with title := some line })
        else
          (st.1, some { e with description := some ((e.description.getD ([])) ++ [line]) })
      else st
    | none => st

def extractWorkExperience (text : Str) (lines : List Str) : List WorkEntry :=
  match linesAfterHeading experienceKeywordsList lines with
  | none =>
    (reGlobal jobTitleRE text).map (fun m =>
      { title := some (trimChars m), company := none, dates := none,
        description := none })
  | some rest =>
    let st := (rest.take 49).foldl weStep (([]), none)
    let finished := match st.2 with
      | some e => st.1 ++ [e]
      | none => st.1
    finished.take 10

def degreeRE : RE :=
  .seq (RE.altList [ciLit ("Bachelor"), ciLit ("Master"), ciLit ("PhD"),
    ciLit ("Ph.D."), ciLit ("B.S."), ciLit ("B.A."), ciLit ("M.S."), ciLit ("M.A."),
    ciLit ("MBA"), ciLit ("B.Tech"), ciLit ("M.Tech")])
    (RE.star (.cls wordOrWsC))

def institutionRE : RE :=
  RE.ofList [.cls isUpperAZ, RE.plus (.cls instBodyC),
    RE.altList [lit ("University"), lit ("College"), lit ("Institute"),
      lit ("School"), lit ("Academy")]]

def gpaRE : RE :=
  RE.ofList [.alt (ciLit ("GPA")) (ciLit ("G.P.A.")), RE.opt (chrR (':')),
    RE.star reWs, reDigit, chrR ('.'), RE.plus reDigit]

/-- Institutions are assigned to degree entries positionally. -/
def zipInstitutions : List EduEntry → List Str → List EduEntry
  | es, [] => es
  | [], _ => []
  | e :: es, i :: is => { e with institution := some i } :: zipInstitutions es is

def setHeadGpa (g : Str) : List EduEntry → List EduEntry
  | [] => []
  | e :: es => { e with gpa := some g } :: es

/-- Education extraction.  The source also searches `lines` for an
education heading index that is never read afterwards; that dead
computation is omitted (the parameter is kept for the source's shape). -/
def extractEducation (text : Str) (_lines : List Str) : List EduEntry :=
  let education := (reGlobal degreeRE text).map (fun dg =>
    { degree := some (trimChars dg), institution := none, dates := none, gpa := none })
  let instMatches := reGlobal institutionRE text
  let education := if !instMatches.isEmpty && education.length > 0 then
      zipInstitutions education (instMatches.map trimChars)
    else education
  let education := match reFirst gpaRE text with
    | some gm =>
      if education.length > 0 then
        setHeadGpa (gm.dropWhile (fun c => !c.isDigit)) education
      else education
    | none => education
  education.take 5

def rpTechnicalSkills : List Str :=
  [("javascript").data, ("python").data, ("java").data, ("c++").data, ("c#").data,
   ("react").data, ("angular").data, ("vue").data, ("node.js").data, ("sql").data,
   ("mongodb").data, ("postgresql").data, ("aws").data, ("docker").data,
   ("kubernetes").data, ("git").data, ("linux").data, ("html").data, ("css").data,
   ("typescript").data, ("php").data, ("ruby").data, ("go").data, ("rust").data,
   ("swift").data, ("kotlin").data]

def rpSoftSkills : List Str :=
  [("leadership").data, ("communication").data, ("teamwork").data,
   ("problem-solving").data, ("collaboration").data, ("time management").data,
   ("critical thinking").data, ("adaptability").data, ("creativity").data,
   ("analytical").data]

def rpTools : List Str :=
  [("jira").data, ("confluence").data, ("slack").data, ("trello").data,
   ("asana").data, ("figma").data, ("sketch").data, ("photoshop").data,
   ("excel").data, ("powerpoint").data, ("word").data, ("outlook").data]

def rpLanguages : List Str :=
  [("english").data, ("spanish").data, ("french").data, ("german").data,
   ("chinese").data, ("japanese").data]

/-- Skills by substring containment against the lowercased text. -/
def extractSkillsR (text : Str) : SkillsRec :=
  let textLower := lower text
  { technical := rpTechnicalSkills.filter (fun s => containsSub textLower s)
    soft := rpSoftSkills.filter (fun s => containsSub textLower s)
    tools := rpTools.filter (fun s => containsSub textLower s)
    languages := rpLanguages.filter (fun s => containsSub textLower s) }

def certificationRE : RE :=
  RE.ofList [.cls isUpperAZ, RE.plus (.cls alphaWsC),
    RE.altList [lit ("Certified"), lit ("Certification"), lit ("Certificate"),
      lit ("License"), lit ("Licensed")]]

/-- Certifications: global, case-sensitive (the original `i` flag is
dropped when the source rebuilds the regex with flag `g`). -/
def extractCertificationsR (text : Str) : List Str :=
  (firstDedup (((reGlobal certificationRE text).filter
    (fun m => m.length < 100)).map trimChars)).take 10

def projectKeywordsList : List Str := [("project").data, ("projects").data, ("portfolio").data]

def linesAfterShortHeading (kws : List Str) (maxLen : Nat) : List Str → Option (List Str)
  | [] => none
  | l :: ls =>
    if kws.any (fun k => containsSub (lower l) k && (lower l).length < maxLen) then some ls
    else linesAfterShortHeading kws maxLen ls

/-- Does the line match the anchored pattern digits-then-dot? -/
def startsNumDot (l : Str) : Bool :=
  let ds := l.takeWhile Char.isDigit
  !ds.isEmpty && (l.drop ds.length).head? = some ('.')

def projGo : List Str → Nat → List ProjectRec
  | [], _ => []
  | l :: ls, cnt =>
    if l.length > 10 && l.length < 100 && !startsNumDot l then
      { name := l, description := none } ::
        (if cnt + 1 ≥ 5 then [] else projGo ls (cnt + 1))
    else projGo ls cnt

def extractProjectsR (_text : Str) (lines : List Str) : List ProjectRec :=
  match linesAfterShortHeading projectKeywordsList 30 lines with
  | none => []
  | some rest => projGo (rest.take 19) 0

def summaryKeywordsList : List Str :=
  [("summary").data, ("objective").data, ("profile").data, ("about").data]

/-- Search the first (up to) ten lines for a summary heading whose next
lines contain something substantial; keep searching otherwise. -/
def summaryGo : Nat → List Str → Option Str
  | 0, _ => none
  | _, [] => none
  | n + 1, l :: ls =>
    if summaryKeywordsList.any
        (fun k => containsSub (lower l) k && (lower l).length < 30) then
      let summaryLines := (ls.take 3).filter (fun x => x.length > 20)
      if summaryLines.length > 0 then some (joinSep [(' ')] summaryLines)
      else summaryGo n ls
    else summaryGo n ls

def extractSummaryR (_text : Str) (lines : List Str) : Option Str :=
  match summaryGo 10 lines with
  | some s => some s
  | none =>
    let firstParagraph := joinSep [(' ')] (lines.take 5)
    if firstParagraph.length > 50 && firstParagraph.length < 500 then
      some firstParagraph
    else none

/-- The trimmed, non-empty lines the parser works with. -/
def parsedLines (text : Str) : List Str :=
  ((splitNl text).map trimChars).filter (fun l => l.length > 0)

/-- Top-level structured resume parse. -/
def parseStructuredResume (resumeText : Str) : StructuredResume :=
  let text := trimChars resumeText
  let lines := parsedLines text
  { contactInfo := extractContactInfo text
    workExperience := extractWorkExperience text lines
    education := extractEducation text lines
    skills := extractSkillsR text
    certifications := extractCertificationsR text
    projects := extractProjectsR text lines
    summary := extractSummaryR text lines }

/-! ## Overall ATS best-practices score (backend atsBestPracticesAnalyzer module) -/

/-- The weight table of the source (nine entries, in object order). -/
def atsWeights : List (Str × ℚ) :=
  [(("contact").data, 15/100), (("summary").data, 15/100),
   (("experience").data, 25/100), (("education").data, 15/100),
   (("skills").data, 15/100), (("location").data, 5/100),
   (("length").data, 5/100), (("keywords").data, 3/100),
   (("achievements").data, 2/100)]

/-- Sections are modelled as an association list from section name to the
score of the section's result object (the call sites always store
objects with a numeric `score`, so the source's truthiness/NaN guards
are vacuous here). -/
def sectionScore (sections : List (Str × ℚ)) (name : Str) : Option ℚ :=
  (sections.find? (fun p => p.1 == name)).map (fun p => p.2)

/-- One weight-table entry's contribution to (weighted sum, total weight). -/
def oatsStep (sections : List (Str × ℚ)) (a : ℚ × ℚ) (w : Str × ℚ) : ℚ × ℚ :=
  match sectionScore sections w.1 with
  | some s => (a.1 + s * w.2, a.2 + w.2)
  | none => a

/-- Overall score: weighted sum over the weight-table entries present in
the sections map, renormalized by the present weight, rounded, clamped. -/
def calculateOverallATSScore (sections : List (Str × ℚ)) : ℤ :=
  let acc := atsWeights.foldl (oatsStep sections) (0, 0)
  let finalScore := if acc.2 > 0 then jsRound (acc.1 / acc.2) else 0
  max 0 (min 100 finalScore)

/-- The weighted renormalized average over a weight table, in the
filter/sum formulation (used to state what the overall score computes). -/
def renormalizedScore (weights : List (Str × ℚ)) (sections : List (Str × ℚ)) : ℤ :=
  let present := weights.filter (fun w => (sectionScore sections w.1).isSome)
  let num := (present.map (fun w => (sectionScore sections w.1).getD 0 * w.2)).sum
  let den := (present.map (fun w => w.2)).sum
  max 0 (min 100 (if den > 0 then jsRound (num / den) else 0))

/-- The claim's weight table: only the seven weights named by the spec. -/
def claimedWeights : List (Str × ℚ) :=
  [(("contact").data, 15/100), (("summary").data, 15/100),
   (("experience").data, 25/100), (("education").data, 15/100),
   (("skills").data, 15/100), (("location").data, 5/100),
   (("length").data, 5/100)]

/-- The overall ATS score exactly as the claim describes it (seven fixed
weights, renormalized over present sections). -/
def specOverallATSScoreClaim (sections : List (Str × ℚ)) : ℤ :=
  renormalizedScore claimedWeights sections

/-! ## Recommendation generator (recommendation engine module) -/

/-- One recommendation record.  Only the fields read by some claim are
kept: the rule identifier, the priority and the title; the display-only
message/action/examples/payload fields of the source records are
omitted (no rule's firing condition or ordering reads them). -/
structure RecItem where
  rtype : Str
  priority : Str
  title : Str
deriving DecidableEq

/-- The keyword lists handed over by the analysis object. -/
structure AnalysisIn where
  jobKeywords : List Str
  topKeywords : List Str

structure RecsOut where
  keywords : List RecItem
  skills : List RecItem
  sections : List RecItem
  achievements : List RecItem
  actionVerbs : List RecItem
  overall : List RecItem

def keywordGroups : List (Str × List Str) :=
  [((("javascript").data),
    [("typescript").data, ("node.js").data, ("react").data, ("angular").data, ("vue").data]),
   ((("python").data),
    [("django").data, ("flask").data, ("pandas").data, ("numpy").data,
     ("machine learning").data]),
   ((("aws").data),
    [("cloud").data, ("azure").data, ("gcp").data, ("devops").data,
     ("infrastructure").data]),
   ((("sql").data),
    [("database").data, ("mysql").data, ("postgresql").data, ("mongodb").data,
     ("nosql").data]),
   ((("agile").data),
    [("scrum").data, ("kanban").data, ("sprint").data, ("jira").data,
     ("project management").data])]

def suggestRelatedKeywords (jobKeywords resumeKeywords : List Str) : List Str :=
  jobKeywords.foldl (fun related jobKw =>
    let jobKwLower := lower jobKw
    keywordGroups.foldl (fun related g =>
      if containsSub jobKwLower g.1 || containsSub g.1 jobKwLower then
        g.2.foldl (fun related relatedKw =>
          if !resumeKeywords.any (fun rk => containsSub (lower rk) relatedKw) then
            (if !related.contains relatedKw then related ++ [relatedKw] else related)
          else related) related
      else related) related) ([])

def generateKeywordRecommendations (resumeText : Str) (_jobDescription : Str)
    (analysis : AnalysisIn) : List RecItem :=
  let resumeLower := lower resumeText
  let jobKeywords := analysis.jobKeywords
  let resumeKeywords := analysis.topKeywords
  let resumeKeywordsLower := resumeKeywords.map lower
  let missingKeywords := jobKeywords.filter (fun jobKw =>
    let jobKwLower := lower jobKw
    !(resumeKeywordsLower.any (fun resKw =>
        containsSub resKw jobKwLower || containsSub jobKwLower resKw)) &&
    !(containsSub resumeLower jobKwLower))
  (if missingKeywords.length > 0 then
    [{ rtype := ("missing_keywords").data, priority := ("high").data,
       title := ("Add Missing Keywords").data }]
  else []) ++
  (if (suggestRelatedKeywords jobKeywords resumeKeywords).length > 0 then
    [{ rtype := ("related_keywords").data, priority := ("medium").data,
       title := ("Consider Adding Related Keywords").data }]
  else [])

def commonSkillsList : List Str :=
  [("javascript").data, ("python").data, ("java").data, ("react").data,
   ("angular").data, ("vue").data, ("node.js").data, ("sql").data,
   ("mongodb").data, ("aws").data, ("docker").data, ("kubernetes").data,
   ("git").data, ("agile").data, ("scrum").data, ("leadership").data,
   ("communication").data, ("teamwork").data, ("problem-solving").data]

def extractSkillsFromText (text : Str) : List Str :=
  let textLower := lower text
  commonSkillsList.filter (fun skill => containsSub textLower skill)

structure SkillsGap where
  percentage : ℤ
  missing : List Str

def calculateSkillsGap (jobSkills resumeSkills : List Str) : SkillsGap :=
  if jobSkills.length = 0 then { percentage := 0, missing := [] }
  else
    let missing := jobSkills.filter (fun js =>
      !resumeSkills.any (fun rs =>
        containsSub rs (lower js) || containsSub (lower js) rs))
    { percentage := jsRound (((missing.length : ℚ) / (jobSkills.length : ℚ)) * 100)
      missing := missing.take 10 }

/-- Skills recommendations (the lowercased job description computed by
the source is never read; the analysis argument is likewise unused). -/
def generateSkillsRecommendations (resumeText : Str) (jobDescription : Str)
    (structuredData : StructuredResume) : List RecItem :=
  let resumeLower := lower resumeText
  let jobSkills := extractSkillsFromText jobDescription
  let allResumeSkills := (structuredData.skills.technical ++
    structuredData.skills.soft ++ structuredData.skills.tools).map lower
  let missingSkills := jobSkills.filter (fun skill =>
    !(allResumeSkills.any (fun rs =>
        containsSub rs (lower skill) || containsSub (lower skill) rs)) &&
    !(containsSub resumeLower (lower skill)))
  (if missingSkills.length > 0 then
    [{ rtype := ("missing_skills").data, priority := ("high").data,
       title := ("Add Missing Skills").data }]
  else []) ++
  (if (calculateSkillsGap jobSkills allResumeSkills).percentage > 30 then
    [{ rtype := ("skills_gap").data, priority := ("high").data,
       title := ("Significant Skills Gap").data }]
  else [])

def generateSectionRecommendations (structuredData : StructuredResume) : List RecItem :=
  (if structuredData.contactInfo.email.isNone then
    [{ rtype := ("missing_contact").data, priority := ("high").data,
       title := ("Add Email Address").data }]
  else []) ++
  (if structuredData.contactInfo.phone.isNone then
    [{ rtype := ("missing_phone").data, priority := ("high").data,
       title := ("Add Phone Number").data }]
  else []) ++
  (if structuredData.workExperience.length = 0 then
    [{ rtype := ("missing_experience").data, priority := ("critical").data,
       title := ("Add Work Experience").data }]
  else if structuredData.workExperience.length < 2 then
    [{ rtype := ("limited_experience").data, priority := ("medium").data,
       title := ("Add More Experience").data }]
  else []) ++
  (if structuredData.education.length = 0 then
    [{ rtype := ("missing_education").data, priority := ("high").data,
       title := ("Add Education").data }]
  else [])

def achPat1 : RE := .seq (RE.plus reDigit) (chrR ('%'))
def achPat2 : RE := .seq (chrR ('$')) (RE.plus reDigit)
def achPat3 : RE :=
  RE.ofList [RE.plus reDigit, RE.plus reWs,
    RE.altList [.seq (ciLit ("year")) (RE.opt (ciChr ('s'))), ciLit ("people"),
      .seq (ciLit ("project")) (RE.opt (ciChr ('s'))),
      .seq (ciLit ("user")) (RE.opt (ciChr ('s'))),
      .seq (ciLit ("customer")) (RE.opt (ciChr ('s')))]]

def achievementCount (resumeText : Str) : Nat :=
  (reGlobal achPat1 resumeText).length + (reGlobal achPat2 resumeText).length +
    (reGlobal achPat3 resumeText).length

def generateAchievementRecommendations (resumeText : Str) : List RecItem :=
  let cnt := achievementCount resumeText
  if cnt = 0 then
    [{ rtype := ("no_achievements").data, priority := ("high").data,
       title := ("Add Quantifiable Achievements").data }]
  else if cnt < 3 then
    [{ rtype := ("few_achievements").data, priority := ("medium").data,
       title := ("Add More Quantifiable Achievements").data }]
  else []

def strongActionVerbsList : List Str :=
  [("achieved").data, ("delivered").data, ("developed").data, ("implemented").data,
   ("improved").data, ("increased").data, ("led").data, ("managed").data,
   ("optimized").data, ("reduced").data, ("created").data, ("designed").data,
   ("executed").data, ("launched").data, ("established").data, ("transformed").data]

def weakVerbsList : List Str :=
  [("worked").data, ("did").data, ("helped").data, ("assisted").data,
   ("participated").data]

def generateActionVerbRecommendations (resumeText : Str) : List RecItem :=
  let resumeLower := lower resumeText
  let strongVerbCount := (strongActionVerbsList.filter
    (fun v => containsSub resumeLower v)).length
  let weakVerbCount := (weakVerbsList.filter
    (fun v => containsSub resumeLower v)).length
  if weakVerbCount > strongVerbCount then
    [{ rtype := ("weak_verbs").data, priority := ("medium").data,
       title := ("Use Stronger Action Verbs").data }]
  else []

/-- Priority rank of the final sort (unknown priorities rank 0). -/
def priorityRank (p : Str) : Nat :=
  if p = ("critical").data then 4
  else if p = ("high").data then 3
  else if p = ("medium").data then 2
  else if p = ("low").data then 1
  else 0

/-- The final stable sort (JS `sort` is stable; ties keep order). -/
def sortByPriority (l : List RecItem) : List RecItem :=
  sortDescBy (fun r => priorityRank r.priority) l

/-- Prioritisation: concatenate the five rule groups, stable-sort by
priority rank descending and keep the top ten. -/
def prioritizeRecommendations (r : RecsOut) : List RecItem :=
  (sortByPriority (r.keywords ++ r.skills ++ r.sections ++ r.achievements ++
    r.actionVerbs)).take 10

/-- The recommendation generator: one list per rule family, plus the
prioritized overall list. -/
def generateRecommendations (resumeText jobDescription : Str) (analysis : AnalysisIn)
    (structuredData : StructuredResume) : RecsOut :=
  let base : RecsOut :=
    { keywords := generateKeywordRecommendations resumeText jobDescription analysis
      skills := generateSkillsRecommendations resumeText jobDescription structuredData
      sections := generateSectionRecommendations structuredData
      achievements := generateAchievementRecommendations resumeText
      actionVerbs := generateActionVerbRecommendations resumeText
      overall := [] }
  { base with overall := prioritizeRecommendations base }

/-! ## Shared lemmas -/

theorem length_insertDescBy (key : α → Nat) (x : α) (l : List α) :
    (insertDescBy key x l).length = l.length + 1 := by
  induction l with
  | nil => rfl
  | cons y ys ih =>
    simp only [insertDescBy]
    split
    · simp
    · simp [ih]

theorem length_sortDescBy (key : α → Nat) (l : List α) :
    (sortDescBy key l).length = l.length := by
  induction l with
  | nil => rfl
  | cons x xs ih => simp [sortDescBy, length_insertDescBy, ih]

theorem length_sortByPriority (l : List RecItem) :
    (sortByPriority l).length = l.length := length_sortDescBy _ l

/-! ## C1 — Java versus JavaScript in the technical matcher -/

/-- C1 (counterexample): for job text "java" and resume text "javascript",
the critical missing-requirements list does not contain the entry for
java, and the per-category extraction includes "java" for the resume even
though "java" has no word-bounded occurrence in "javascript" — both
directly contradicting the claim. -/
theorem c1_counterexample :
    ({ rtype := ("programmingLanguage").data, term := ("java").data } : MissingItem) ∉
      (findMissingRequirements (extractTechnicalRequirements (("java").data))
        (extractTechnicalRequirements (("javascript").data))).critical ∧
    ("java").data ∈
      (extractTechnicalRequirements
        (("javascript").data)).categories.programmingLanguages ∧
    reTest (wordREL (("java").data)) (("javascript").data) = false := by
  refine ⟨by decide, by decide, by decide⟩

/-- C1 (amended): the programming-language regex has the extra
alternatives term.js and termscript, so "java" is extracted from a resume
mentioning only "javascript"; consequently a job requiring Java is not
reported as missing against such a resume.  In the opposite direction a
job mentioning "javascript" against a resume mentioning only "java" does
report javascript as critically missing. -/
theorem c1_java_javascript :
    (extractTechnicalRequirements (("javascript").data)).categories.programmingLanguages
      = [("javascript").data, ("java").data] ∧
    (findMissingRequirements (extractTechnicalRequirements (("java").data))
      (extractTechnicalRequirements (("javascript").data))).critical = [] ∧
    (findMissingRequirements (extractTechnicalRequirements (("javascript").data))
      (extractTechnicalRequirements (("java").data))).critical
      = [{ rtype := ("programmingLanguage").data, term := ("javascript").data }] := by
  refine ⟨by decide, by decide, by decide⟩

/-! ## C4 — empty-input safety -/

/-- C4: on empty input the pipeline degrades: all similarity scores are
zero (the division guards take effect), the technical extraction is
empty in every category, and the structured parse consists of empty and
absent fields. -/
theorem c4_empty_input_safety :
    jaccardSim ([]) ([]) = 0 ∧ cosineSim ([]) ([]) = 0 ∧
    bigramOverlapSim ([]) ([]) = 0 ∧ combinedSim ([]) ([]) = 0 ∧
    extractTechnicalRequirements ([]) =
      { categories :=
          { programmingLanguages := [], frameworks := [], tools := [],
            platforms := [], databases := [], methodologies := [],
            certifications := [], softSkills := [], experience := [],
            education := [] },
        technicalKeywords := [], allTechnicalTerms := [],
        summary :=
          { totalTechnicalTerms := 0, programmingLanguages := 0, frameworks := 0,
            tools := 0, platforms := 0, databases := 0 } } ∧
    parseStructuredResume ([]) =
      { contactInfo :=
          { name := none, email := none, phone := none, address := none,
            linkedin := none, github := none, website := none },
        workExperience := [], education := [],
        skills := { technical := [], soft := [], tools := [], languages := [] },
        certifications := [], projects := [], summary := none } := by
  have hj : jaccardSim ([]) ([]) = 0 := rfl
  have hb : bigramOverlapSim ([]) ([]) = 0 := rfl
  have hc : cosineSim ([]) ([]) = 0 := by
    unfold cosineSim
    exact if_pos (Or.inl rfl)
  refine ⟨hj, hc, hb, ?_, by decide, by decide⟩
  unfold combinedSim
  rw [hj, hb, hc]
  norm_num

/-! ## C6 — parser entry caps -/

/-- A text of eleven job-title-shaped lines and no experience heading. -/
def elevenTitles : Str :=
  ("VP a.\nVP a.\nVP a.\nVP a.\nVP a.\nVP a.\nVP a.\nVP a.\nVP a.\nVP a.\nVP a.").data

/-- C6 (counterexample): on the fallback path (no experience heading) the
parser returns eleven work-experience entries — the ten-entry cap of the
claim does not hold there, because the fallback returns before the cap
is applied. -/
theorem c6_counterexample :
    ¬ ((parseStructuredResume elevenTitles).workExperience.length ≤ 10) := by
  decide

/-- C6 (amended): the education list is always capped at five entries,
and the work-experience list is capped at ten entries whenever an
experience-section heading is found; the fallback job-title scan is
uncapped. -/
theorem c6_caps :
    ∀ text : Str,
      (parseStructuredResume text).education.length ≤ 5 ∧
      (linesAfterHeading experienceKeywordsList (parsedLines (trimChars text)) ≠ none →
        (parseStructuredResume text).workExperience.length ≤ 10) := by
  intro text
  constructor
  · show (extractEducation (trimChars text) (parsedLines (trimChars text))).length ≤ 5
    unfold extractEducation
    exact List.length_take_le 5 _
  · intro h
    show (extractWorkExperience (trimChars text) (parsedLines (trimChars text))).length ≤ 10
    unfold extractWorkExperience
    rcases hh : linesAfterHeading experienceKeywordsList (parsedLines (trimChars text)) with
      _ | rest
    · exact absurd hh h
    · exact List.length_take_le 10 _

/-- C6 (witness): a resume with an experience heading obeys both caps. -/
theorem c6_caps_witness :
    (parseStructuredResume
      (("Experience\n2019 - 2021\nBuilt the things").data)).education.length ≤ 5 ∧
    (parseStructuredResume
      (("Experience\n2019 - 2021\nBuilt the things").data)).workExperience.length ≤ 10 :=
  ⟨(c6_caps _).1, (c6_caps _).2 (by decide)⟩

/-! ## C9 — experience match rules -/

/-- C9 (counterexample): for the job text "0 years" the required-years
regex does match (with value 0), the resume "x" states no years, and the
result is 0.5 — not the 0.2 the claim's rules prescribe whenever the
regex matched and the resume states no years. -/
theorem c9_counterexample :
    (reFirst expJobRE (lower (("0 years").data))).isSome = true ∧
    statedYearsOf (("x").data) = 0 ∧
    calculateExperienceMatch (("x").data) (("0 years").data) = 1/2 ∧
    calculateExperienceMatch (("x").data) (("0 years").data) ≠ 1/5 := by
  refine ⟨by decide, by decide, rfl, ?_⟩
  rw [show calculateExperienceMatch (("x").data) (("0 years").data) = 1/2 from rfl]
  norm_num

/-- C9 (amended): the experience sub-score keys on the extracted
required-years value: a value of 0 (no regex match, or an explicit zero)
is neutral 0.5; otherwise a resume stating no years scores 0.2, a resume
stating at least the required years scores exactly 1.0, and otherwise
the ratio applies with a 0.2 floor. -/
theorem c9_experience_rules :
    ∀ resumeText jobDescription : Str,
      (requiredYearsOf jobDescription = 0 →
        calculateExperienceMatch resumeText jobDescription = 1/2) ∧
      (requiredYearsOf jobDescription ≠ 0 → statedYearsOf resumeText = 0 →
        calculateExperienceMatch resumeText jobDescription = 1/5) ∧
      (requiredYearsOf jobDescription ≠ 0 → statedYearsOf resumeText ≠ 0 →
        statedYearsOf resumeText ≥ requiredYearsOf jobDescription →
        calculateExperienceMatch resumeText jobDescription = 1) ∧
      (requiredYearsOf jobDescription ≠ 0 → statedYearsOf resumeText ≠ 0 →
        statedYearsOf resumeText < requiredYearsOf jobDescription →
        calculateExperienceMatch resumeText jobDescription =
          max (1/5) ((statedYearsOf resumeText : ℚ) /
            (requiredYearsOf jobDescription : ℚ))) := by
  intro resumeText jobDescription
  unfold calculateExperienceMatch
  refine ⟨fun h => by simp [h], fun h1 h2 => by simp [h1, h2], fun h1 h2 h3 => ?_,
    fun h1 h2 h3 => ?_⟩
  · simp [h1, h2, h3]
  · have : ¬ (statedYearsOf resumeText ≥ requiredYearsOf jobDescription) :=
      Nat.not_le_of_lt h3
    simp [h1, h2, this]

/-- C9 (witness): "5 years of exp" against "3+ years" scores exactly 1. -/
theorem c9_experience_rules_witness :
    requiredYearsOf (("3+ years").data) = 3 ∧
    statedYearsOf (("5 years of exp").data) = 5 ∧
    calculateExperienceMatch (("5 years of exp").data) (("3+ years").data) = 1 :=
  ⟨by decide, by decide,
    (c9_experience_rules _ _).2.2.1 (by decide) (by decide) (by decide)⟩

/-! ## C10 — per-category match partition -/

theorem mcStep_lengths (rl : List Str) (acc : List MatchRec × List Str) (x : Str) :
    (mcStep rl acc x).1.length + (mcStep rl acc x).2.length
      = acc.1.length + acc.2.length + 1 := by
  unfold mcStep
  split
  · simp; omega
  · split <;> simp <;> omega

theorem mcFold_lengths (rl : List Str) :
    ∀ (items : List Str) (acc : List MatchRec × List Str),
      (items.foldl (mcStep rl) acc).1.length + (items.foldl (mcStep rl) acc).2.length
        = acc.1.length + acc.2.length + items.length := by
  intro items
  induction items with
  | nil => intro acc; simp
  | cons x xs ih =>
    intro acc
    simp only [List.foldl_cons, List.length_cons]
    rw [ih (mcStep rl acc x), mcStep_lengths]
    omega

theorem mcStep_types (rl : List Str) (acc : List MatchRec × List Str) (x : Str)
    (hacc : ∀ m ∈ acc.1, m.matchType = ("exact").data ∨ m.matchType = ("fuzzy").data) :
    ∀ m ∈ (mcStep rl acc x).1,
      m.matchType = ("exact").data ∨ m.matchType = ("fuzzy").data := by
  unfold mcStep
  split
  · intro m hm
    rcases List.mem_append.mp hm with h | h
    · exact hacc m h
    · rcases List.mem_singleton.mp h with rfl
      exact Or.inl rfl
  · split
    · intro m hm
      rcases List.mem_append.mp hm with h | h
      · exact hacc m h
      · rcases List.mem_singleton.mp h with rfl
        exact Or.inr rfl
    · exact hacc

theorem mcFold_types (rl : List Str) :
    ∀ (items : List Str) (acc : List MatchRec × List Str),
      (∀ m ∈ acc.1, m.matchType = ("exact").data ∨ m.matchType = ("fuzzy").data) →
      ∀ m ∈ (items.foldl (mcStep rl) acc).1,
        m.matchType = ("exact").data ∨ m.matchType = ("fuzzy").data := by
  intro items
  induction items with
  | nil => intro acc hacc; simpa using hacc
  | cons x xs ih =>
    intro acc hacc
    simp only [List.foldl_cons]
    exact ih (mcStep rl acc x) (mcStep_types rl acc x hacc)

/-- C10: the per-category matcher partitions the job terms — the matched
and missing lists together account for every job term exactly once, each
matched record is typed exact or fuzzy, the match rate is 100 times the
matched fraction when job terms exist, and an empty job list yields a
match rate of 0 rather than 100. -/
theorem c10_matchCategory_partition :
    ∀ jobItems resumeItems : List Str,
      (matchCategory jobItems resumeItems).matched.length +
        (matchCategory jobItems resumeItems).missing.length = jobItems.length ∧
      (∀ m ∈ (matchCategory jobItems resumeItems).matched,
        m.matchType = ("exact").data ∨ m.matchType = ("fuzzy").data) ∧
      (jobItems ≠ [] →
        (matchCategory jobItems resumeItems).matchRate =
          100 * ((matchCategory jobItems resumeItems).matched.length : ℚ) /
            (jobItems.length : ℚ)) ∧
      (jobItems = [] → (matchCategory jobItems resumeItems).matchRate = 0) := by
  intro jobItems resumeItems
  refine ⟨?_, ?_, ?_, ?_⟩
  · simpa using mcFold_lengths (resumeItems.map lower) jobItems (([]), ([]))
  · exact mcFold_types (resumeItems.map lower) jobItems (([]), ([])) (by simp)
  · intro h
    unfold matchCategory
    dsimp only
    rw [if_pos (by simpa using List.length_pos.mpr h)]
    ring
  · intro h
    subst h
    rfl

/-- C10 (witness): a one-term job list against an exactly matching resume
splits 1 + 0, with a 100 percent match rate; an empty job list rates 0. -/
theorem c10_matchCategory_partition_witness :
    (matchCategory [("aa").data] [("aa").data]).matched.length +
      (matchCategory [("aa").data] [("aa").data]).missing.length = 1 ∧
    (matchCategory [("aa").data] [("aa").data]).matchRate =
      100 * ((matchCategory [("aa").data] [("aa").data]).matched.length : ℚ) / 1 ∧
    (matchCategory ([]) [("aa").data]).matchRate = 0 :=
  ⟨(c10_matchCategory_partition [("aa").data] [("aa").data]).1,
    by simpa using
      (c10_matchCategory_partition [("aa").data] [("aa").data]).2.2.1 (by decide),
    (c10_matchCategory_partition ([]) [("aa").data]).2.2.2 rfl⟩

/-! ## C7 — multi-factor aggregation and non-linear post-scaling -/

theorem clamp01_nonneg (q : ℚ) : 0 ≤ clamp01 q :=
  le_min (by norm_num) (le_max_left 0 q)

theorem clamp01_le_one (q : ℚ) : clamp01 q ≤ 1 := min_le_left 1 _

theorem weightedScoreOf_nonneg (s : FactorScores) : 0 ≤ weightedScoreOf s := by
  have h1 := clamp01_nonneg s.semanticSimilarity
  have h2 := clamp01_nonneg (s.keywordMatch / 100)
  have h3 := clamp01_nonneg s.skillRelevance
  have h4 := clamp01_nonneg s.experienceMatch
  have h5 := clamp01_nonneg s.educationMatch
  unfold weightedScoreOf
  linarith

theorem weightedScoreOf_le_100 (s : FactorScores) : weightedScoreOf s ≤ 100 := by
  have h1 := clamp01_le_one s.semanticSimilarity
  have h2 := clamp01_le_one (s.keywordMatch / 100)
  have h3 := clamp01_le_one s.skillRelevance
  have h4 := clamp01_le_one s.experienceMatch
  have h5 := clamp01_le_one s.educationMatch
  have g1 := clamp01_nonneg s.semanticSimilarity
  have g2 := clamp01_nonneg (s.keywordMatch / 100)
  have g3 := clamp01_nonneg s.skillRelevance
  have g4 := clamp01_nonneg s.experienceMatch
  have g5 := clamp01_nonneg s.educationMatch
  unfold weightedScoreOf
  linarith

theorem jsRound_nonneg {q : ℚ} (h : 0 ≤ q) : 0 ≤ jsRound q :=
  Int.le_floor.mpr (by push_cast; linarith)

theorem jsRound_le_100 {q : ℚ} (h : q ≤ 100) : jsRound q ≤ 100 := by
  have : jsRound q < 101 := Int.floor_lt.mpr (by push_cast; linarith)
  omega

/-- C7: the aggregator is the weighted clamped sum scaled to 0-100, with
the non-linear post-scaling applied exactly as described (below 50 times
0.95, in the interval 50 to just below 80 unchanged, at 80 or above
times 1.05 capped at 100), and the rounded result is always in 0..100. -/
theorem c7_multifactor_scaling :
    ∀ scores : FactorScores,
      0 ≤ calculateMultiFactorScore scores ∧
      calculateMultiFactorScore scores ≤ 100 ∧
      (weightedScoreOf scores < 50 →
        calculateMultiFactorScore scores =
          jsRound (weightedScoreOf scores * (95/100))) ∧
      (50 ≤ weightedScoreOf scores → weightedScoreOf scores < 80 →
        calculateMultiFactorScore scores = jsRound (weightedScoreOf scores)) ∧
      (80 ≤ weightedScoreOf scores →
        calculateMultiFactorScore scores =
          jsRound (min 100 (weightedScoreOf scores * (105/100)))) := by
  intro scores
  have h0 := weightedScoreOf_nonneg scores
  have h100 := weightedScoreOf_le_100 scores
  have key : calculateMultiFactorScore scores =
      jsRound (min (if weightedScoreOf scores < 50 then
          weightedScoreOf scores * (95/100)
        else if weightedScoreOf scores < 80 then weightedScoreOf scores
        else min 100 (weightedScoreOf scores * (105/100))) 100) := rfl
  have hscaled0 : 0 ≤ (if weightedScoreOf scores < 50 then
      weightedScoreOf scores * (95/100)
    else if weightedScoreOf scores < 80 then weightedScoreOf scores
    else min 100 (weightedScoreOf scores * (105/100))) := by
    split
    · linarith
    · split
      · linarith
      · exact le_min (by norm_num) (by linarith)
  have hmin100 : (min (if weightedScoreOf scores < 50 then
      weightedScoreOf scores * (95/100)
    else if weightedScoreOf scores < 80 then weightedScoreOf scores
    else min 100 (weightedScoreOf scores * (105/100))) 100) ≤ 100 :=
    min_le_right _ _
  refine ⟨?_, ?_, ?_, ?_, ?_⟩
  · rw [key]
    exact jsRound_nonneg (le_min hscaled0 (by norm_num))
  · rw [key]
    exact jsRound_le_100 hmin100
  · intro h
    rw [key, if_pos h, min_eq_left (by linarith)]
  · intro h1 h2
    rw [key, if_neg (not_lt.mpr h1), if_pos h2, min_eq_left (by linarith)]
  · intro h
    rw [key, if_neg (by linarith), if_neg (by linarith),
      min_eq_left (min_le_left _ _)]

/-- C7 (witness): with every factor at its maximum the weighted score is
100, the high branch fires and the result is within bounds. -/
theorem c7_multifactor_scaling_witness :
    80 ≤ weightedScoreOf (⟨1, 100, 1, 1, 1⟩ : FactorScores) ∧
    calculateMultiFactorScore (⟨1, 100, 1, 1, 1⟩ : FactorScores) =
      jsRound (min 100 (weightedScoreOf (⟨1, 100, 1, 1, 1⟩ : FactorScores) * (105/100))) ∧
    0 ≤ calculateMultiFactorScore (⟨1, 100, 1, 1, 1⟩ : FactorScores) := by
  have h80 : (80:ℚ) ≤ weightedScoreOf (⟨1, 100, 1, 1, 1⟩ : FactorScores) := by
    norm_num [weightedScoreOf, clamp01]
  exact ⟨h80, (c7_multifactor_scaling _).2.2.2.2 h80, (c7_multifactor_scaling _).1⟩

/-! ## C2 — overall ATS score weights -/

theorem oatsFold (sections : List (Str × ℚ)) :
    ∀ (ws : List (Str × ℚ)) (a : ℚ × ℚ),
      ws.foldl (oatsStep sections) a =
        (a.1 + ((ws.filter (fun w => (sectionScore sections w.1).isSome)).map
            (fun w => (sectionScore sections w.1).getD 0 * w.2)).sum,
         a.2 + ((ws.filter (fun w => (sectionScore sections w.1).isSome)).map
            (fun w => w.2)).sum) := by
  intro ws
  induction ws with
  | nil => intro a; simp
  | cons w ws ih =>
    intro a
    simp only [List.foldl_cons]
    rw [ih]
    rcases h : sectionScore sections w.1 with _ | s
    · simp [oatsStep, h, List.filter_cons]
    · simp only [oatsStep, h, List.filter_cons, Option.isSome_some, if_pos,
        List.map_cons, List.sum_cons, Option.getD_some]
      refine Prod.ext ?_ ?_ <;> dsimp <;> ring

theorem renormalized_eq_fold (weights sections : List (Str × ℚ)) :
    renormalizedScore weights sections =
      max 0 (min 100 (if (weights.foldl (oatsStep sections) (0, 0)).2 > 0 then
        jsRound ((weights.foldl (oatsStep sections) (0, 0)).1 /
          (weights.foldl (oatsStep sections) (0, 0)).2) else 0)) := by
  rw [oatsFold sections weights (0, 0)]
  simp only [zero_add]
  rfl

/-- C2 (amended): the overall score is the weighted average renormalized
over the sections present among the NINE weight-table entries — the seven
of the claim plus keywords at 3 percent and achievements at 2 percent —
and the clamped result lies in 0..100 for every sections map. -/
theorem c2_overall_score_renormalization :
    ∀ sections : List (Str × ℚ),
      calculateOverallATSScore sections = renormalizedScore atsWeights sections ∧
      0 ≤ calculateOverallATSScore sections ∧
      calculateOverallATSScore sections ≤ 100 := by
  intro sections
  refine ⟨?_, ?_, ?_⟩
  · rw [renormalized_eq_fold]
    rfl
  · unfold calculateOverallATSScore
    exact le_max_left _ _
  · unfold calculateOverallATSScore
    exact max_le (by norm_num) (min_le_left _ _)

/-- A sections map with a perfect contact section and a zero keywords
section: only contact is among the claim's seven weights. -/
def c2Sections : List (Str × ℚ) := [(("contact").data, 100), (("keywords").data, 0)]

/-- C2 (counterexample): with only contact (score 100) and keywords
(score 0) present, the source computes 100·15% + 0·3% over 18% = 83,
while the weighted average over the claim's seven weights is 100 — the
weight table also contains keywords (3%) and achievements (2%). -/
theorem c2_counterexample :
    calculateOverallATSScore c2Sections = 83 ∧
    specOverallATSScoreClaim c2Sections = 100 ∧
    calculateOverallATSScore c2Sections ≠ specOverallATSScoreClaim c2Sections := by
  have hco : sectionScore c2Sections (("contact").data) = some 100 := by decide
  have hsu : sectionScore c2Sections (("summary").data) = none := by decide
  have hex : sectionScore c2Sections (("experience").data) = none := by decide
  have hed : sectionScore c2Sections (("education").data) = none := by decide
  have hsk : sectionScore c2Sections (("skills").data) = none := by decide
  have hlo : sectionScore c2Sections (("location").data) = none := by decide
  have hle : sectionScore c2Sections (("length").data) = none := by decide
  have hke : sectionScore c2Sections (("keywords").data) = some 0 := by decide
  have hac : sectionScore c2Sections (("achievements").data) = none := by decide
  have h1 : calculateOverallATSScore c2Sections = 83 := by
    unfold calculateOverallATSScore atsWeights
    simp only [List.foldl_cons, List.foldl_nil, oatsStep, hco, hsu, hex, hed, hsk,
      hlo, hle, hke, hac]
    rw [if_pos (by norm_num)]
    norm_num [jsRound]
  have h2 : specOverallATSScoreClaim c2Sections = 100 := by
    unfold specOverallATSScoreClaim
    rw [renormalized_eq_fold]
    unfold claimedWeights
    simp only [List.foldl_cons, List.foldl_nil, oatsStep, hco, hsu, hex, hed, hsk,
      hlo, hle]
    rw [if_pos (by norm_num)]
    norm_num [jsRound]
  refine ⟨h1, h2, ?_⟩
  rw [h1, h2]
  norm_num

/-! ## C3 — similarity reflexivity -/

theorem contains_iff_mem (l : List Str) (a : Str) : l.contains a = true ↔ a ∈ l :=
  List.elem_iff

/-- The accumulator-threaded form of JS `Set` insertion. -/
def seenFold (seen : List Str) (xs : List Str) : List Str :=
  xs.foldl (fun s x => if s.contains x then s else x :: s) seen

theorem dedupAux_append (xs ys seen : List Str) :
    dedupAux seen (xs ++ ys) = dedupAux seen xs ++ dedupAux (seenFold seen xs) ys := by
  induction xs generalizing seen with
  | nil => simp [dedupAux, seenFold]
  | cons x xs ih =>
    simp only [List.cons_append, dedupAux, seenFold, List.foldl_cons]
    by_cases h : seen.contains x = true
    · rw [if_pos h, if_pos h, if_pos h]
      exact ih seen
    · rw [if_neg h, if_neg h, if_neg h]
      simp only [List.cons_append, List.cons.injEq, true_and]
      exact ih (x :: seen)

theorem seenFold_contains (xs : List Str) :
    ∀ (seen : List Str) (a : Str), a ∈ xs ∨ seen.contains a = true →
      (seenFold seen xs).contains a = true := by
  induction xs with
  | nil =>
    intro seen a h
    rcases h with h | h
    · cases h
    · exact h
  | cons x xs ih =>
    intro seen a h
    simp only [seenFold, List.foldl_cons]
    by_cases hx : seen.contains x = true
    · rw [if_pos hx]
      rcases h with h | h
      · rcases List.mem_cons.mp h with rfl | h2
        · exact ih seen a (Or.inr hx)
        · exact ih seen a (Or.inl h2)
      · exact ih seen a (Or.inr h)
    · rw [if_neg hx]
      rcases h with h | h
      · rcases List.mem_cons.mp h with rfl | h2
        · exact ih (a :: seen) a
            (Or.inr ((contains_iff_mem _ _).mpr (List.mem_cons_self a seen)))
        · exact ih (x :: seen) a (Or.inl h2)
      · exact ih (x :: seen) a
          (Or.inr ((contains_iff_mem _ _).mpr
            (List.mem_cons_of_mem x ((contains_iff_mem _ _).mp h))))

theorem dedupAux_nil_of_all (ys : List Str) :
    ∀ seen : List Str, (∀ a ∈ ys, seen.contains a = true) → dedupAux seen ys = [] := by
  induction ys with
  | nil => intro seen _; rfl
  | cons y ys ih =>
    intro seen h
    simp only [dedupAux]
    rw [if_pos (h y (List.mem_cons_self y ys))]
    exact ih seen (fun a ha => h a (List.mem_cons_of_mem y ha))

theorem dedupAux_idem (l : List Str) :
    ∀ seen : List Str, dedupAux seen (dedupAux seen l) = dedupAux seen l := by
  induction l with
  | nil => intro seen; rfl
  | cons x xs ih =>
    intro seen
    by_cases h : seen.contains x = true
    · simp only [dedupAux, if_pos h]
      exact ih seen
    · simp only [dedupAux, if_neg h]
      exact congrArg (fun l => x :: l) (ih (x :: seen))

theorem mem_dedupAux (l : List Str) :
    ∀ (seen : List Str) (a : Str), a ∈ l → seen.contains a = false →
      a ∈ dedupAux seen l := by
  induction l with
  | nil => intro _ _ h; cases h
  | cons x xs ih =>
    intro seen a ha hs
    rcases List.mem_cons.mp ha with rfl | h2
    · simp only [dedupAux]
      rw [if_neg (by rw [hs]; simp)]
      exact List.mem_cons_self a _
    · by_cases hx : seen.contains x = true
      · simp only [dedupAux, if_pos hx]
        exact ih seen a h2 hs
      · simp only [dedupAux, if_neg hx]
        by_cases hax : a = x
        · subst hax
          exact List.mem_cons_self a _
        · refine List.mem_cons_of_mem x (ih (x :: seen) a h2 ?_)
          simp only [Bool.eq_false_iff, Ne, contains_iff_mem]
          intro hmem
          rcases List.mem_cons.mp hmem with h3 | h3
          · exact hax h3
          · exact (Bool.eq_false_iff.mp hs) ((contains_iff_mem _ _).mpr h3)

theorem firstDedup_append_self (l : List Str) :
    firstDedup (firstDedup l ++ firstDedup l) = firstDedup l := by
  unfold firstDedup
  rw [dedupAux_append]
  rw [dedupAux_idem]
  rw [dedupAux_nil_of_all _ _ (fun a ha => seenFold_contains _ _ a (Or.inl ha))]
  simp

theorem firstDedup_ne_nil {l : List Str} (h : l ≠ []) : firstDedup l ≠ [] := by
  rcases l with _ | ⟨x, xs⟩
  · exact absurd rfl h
  · simp [firstDedup, dedupAux]

theorem mem_firstDedup {l : List Str} {a : Str} (h : a ∈ l) : a ∈ firstDedup l :=
  mem_dedupAux l ([]) a h rfl

theorem jaccardOf_self (X : List Str) (h : X ≠ []) :
    jaccardOf (firstDedup X) (firstDedup X) = 1 := by
  unfold jaccardOf
  rw [firstDedup_append_self]
  rw [List.filter_eq_self.mpr
    (fun a ha => (contains_iff_mem (firstDedup X) a).mpr ha)]
  rw [if_pos (List.length_pos.mpr (firstDedup_ne_nil h))]
  rw [div_self]
  exact Nat.cast_ne_zero.mpr
    (Nat.pos_iff_ne_zero.mp (List.length_pos.mpr (firstDedup_ne_nil h)))

theorem dot_self_eq_magSq (v : List ℚ) : dotProduct v v = magSq v := by
  unfold dotProduct magSq
  induction v with
  | nil => rfl
  | cons x xs ih => simp [ih]

theorem sum_pos_of_mem {l : List ℚ} {x : ℚ} (hx : x ∈ l) (hall : ∀ y ∈ l, 0 ≤ y)
    (hpos : 0 < x) : 0 < l.sum := by
  induction l with
  | nil => cases hx
  | cons a as ih =>
    rcases List.mem_cons.mp hx with rfl | h2
    · have : 0 ≤ as.sum :=
        List.sum_nonneg (fun y hy => hall y (List.mem_cons_of_mem x hy))
      simp only [List.sum_cons]
      linarith
    · have h0 : 0 ≤ a := hall a (List.mem_cons_self a as)
      have := ih h2 (fun y hy => hall y (List.mem_cons_of_mem a hy))
      simp only [List.sum_cons]
      linarith

theorem one_le_selfCount {l : List Str} {x : Str} (hx : x ∈ l) :
    1 ≤ ((l.filter (fun y => y == x)).length : ℚ) := by
  have hmem : x ∈ l.filter (fun y => y == x) :=
    List.mem_filter.mpr ⟨hx, by simp⟩
  have := List.length_pos.mpr (List.ne_nil_of_mem hmem)
  exact_mod_cast this

theorem cosineComp_head_ge_one (p : Processed) {x : Str} (hx : x ∈ p.unigrams) :
    1 ≤ cosineComp p x := by
  unfold cosineComp
  have h1 := one_le_selfCount hx
  have h2 : (0:ℚ) ≤ ((p.bigrams.filter (fun bg => containsSub bg x)).length : ℚ) :=
    Nat.cast_nonneg _
  linarith

theorem magSq_pos_of_self (t : Str) (h : (advancedPreprocessText t).unigrams ≠ []) :
    0 < magSq (cosineVectors t t).1 := by
  rcases hu : (advancedPreprocessText t).unigrams with _ | ⟨u0, us⟩
  · exact absurd hu h
  · have hu0 : u0 ∈ (advancedPreprocessText t).unigrams := by
      rw [hu]; exact List.mem_cons_self u0 us
    have hterm : u0 ∈ cosineTerms t t :=
      mem_firstDedup (List.mem_append.mpr (Or.inl hu0))
    have hcomp : 1 ≤ cosineComp (advancedPreprocessText t) u0 :=
      cosineComp_head_ge_one _ hu0
    have hmm : cosineComp (advancedPreprocessText t) u0 *
        cosineComp (advancedPreprocessText t) u0 ∈
        ((cosineTerms t t).map (cosineComp (advancedPreprocessText t))).map
          (fun x => x * x) := by
      exact List.mem_map.mpr ⟨cosineComp (advancedPreprocessText t) u0,
        List.mem_map.mpr ⟨u0, hterm, rfl⟩, rfl⟩
    refine sum_pos_of_mem hmm (fun y hy => ?_) (by nlinarith)
    rcases List.mem_map.mp hy with ⟨z, _, rfl⟩
    exact mul_self_nonneg z

/-- C3 (counterexample): the text "!!!" is non-empty, but it tokenizes to
nothing, so its self-similarity has jaccard 0, not 1 (the cosine is 0 as
well: both magnitudes vanish). -/
theorem c3_counterexample :
    (("!!!").data ≠ ([])) ∧ jaccardSim (("!!!").data) (("!!!").data) ≠ 1 ∧
    cosineSim (("!!!").data) (("!!!").data) = 0 := by
  refine ⟨by decide, ?_, if_pos (Or.inl rfl)⟩
  rw [show jaccardSim (("!!!").data) (("!!!").data) = 0 from rfl]
  norm_num

/-- C3 (amended): self-similarity is maximal for every text that still
has at least one token after tokenization and stopword removal — then
jaccard and cosine both equal 1 exactly. -/
theorem c3_self_similarity :
    ∀ t : Str, (advancedPreprocessText t).unigrams ≠ [] →
      jaccardSim t t = 1 ∧ cosineSim t t = 1 := by
  intro t h
  constructor
  · unfold jaccardSim simSet
    apply jaccardOf_self
    intro hc
    exact h (List.append_eq_nil.mp hc).1
  · have hm : 0 < magSq (cosineVectors t t).1 := magSq_pos_of_self t h
    have hv : (cosineVectors t t).2 = (cosineVectors t t).1 := rfl
    unfold cosineSim
    rw [if_neg (by rw [hv]; simp [ne_of_gt hm])]
    rw [hv, dot_self_eq_magSq]
    have hcast : (0:ℝ) ≤ (magSq (cosineVectors t t).1 : ℝ) := by
      exact_mod_cast le_of_lt hm
    rw [Real.mul_self_sqrt hcast]
    exact div_self (by exact_mod_cast ne_of_gt hm)

/-- C3 (witness): the two-token text "aa bb" survives preprocessing and
is maximally similar to itself. -/
theorem c3_self_similarity_witness :
    (advancedPreprocessText (("aa bb").data)).unigrams ≠ [] ∧
    jaccardSim (("aa bb").data) (("aa bb").data) = 1 ∧
    cosineSim (("aa bb").data) (("aa bb").data) = 1 :=
  ⟨by decide, (c3_self_similarity _ (by decide)).1, (c3_self_similarity _ (by decide)).2⟩

/-! ## C5 — recommendation generator: stable sort, nothing dropped -/

theorem length_ifSingle {c : Prop} [Decidable c] (x : RecItem) :
    (if c then [x] else []).length ≤ 1 := by
  by_cases h : c <;> simp [h]

theorem length_ifChain {c1 c2 : Prop} [Decidable c1] [Decidable c2] (x y : RecItem) :
    (if c1 then [x] else if c2 then [y] else []).length ≤ 1 := by
  by_cases h1 : c1 <;> by_cases h2 : c2 <;> simp [h1, h2]

theorem len_keywordRecs (rt jd : Str) (an : AnalysisIn) :
    (generateKeywordRecommendations rt jd an).length ≤ 2 := by
  unfold generateKeywordRecommendations
  dsimp only
  rw [List.length_append]
  exact add_le_add (length_ifSingle _) (length_ifSingle _)

theorem len_skillsRecs (rt jd : Str) (sd : StructuredResume) :
    (generateSkillsRecommendations rt jd sd).length ≤ 2 := by
  unfold generateSkillsRecommendations
  dsimp only
  rw [List.length_append]
  exact add_le_add (length_ifSingle _) (length_ifSingle _)

theorem len_sectionRecs (sd : StructuredResume) :
    (generateSectionRecommendations sd).length ≤ 4 := by
  unfold generateSectionRecommendations
  rw [List.length_append, List.length_append, List.length_append]
  exact add_le_add (add_le_add (add_le_add (length_ifSingle _) (length_ifSingle _))
    (length_ifChain _ _)) (length_ifSingle _)

theorem len_achievementRecs (rt : Str) :
    (generateAchievementRecommendations rt).length ≤ 1 := by
  unfold generateAchievementRecommendations
  dsimp only
  exact length_ifChain _ _

theorem len_actionVerbRecs (rt : Str) :
    (generateActionVerbRecommendations rt).length ≤ 1 := by
  unfold generateActionVerbRecommendations
  dsimp only
  exact length_ifSingle _

/-- C5: the recommendation generator's overall output is exactly the
stable priority-descending sort of the five rule groups' records and
drops none of them: at most ten rules can fire (2 keyword, 2 skills, 4
section, 1 achievement, 1 action-verb), so the top-ten truncation after
the sort never removes a record and the output length always equals the
number of fired rules. -/
theorem c5_recommendations_sorted :
    ∀ (resumeText jobDescription : Str) (analysis : AnalysisIn)
      (structuredData : StructuredResume),
      (generateRecommendations resumeText jobDescription analysis
          structuredData).overall =
        sortByPriority
          ((generateRecommendations resumeText jobDescription analysis
              structuredData).keywords ++
            (generateRecommendations resumeText jobDescription analysis
              structuredData).skills ++
            (generateRecommendations resumeText jobDescription analysis
              structuredData).sections ++
            (generateRecommendations resumeText jobDescription analysis
              structuredData).achievements ++
            (generateRecommendations resumeText jobDescription analysis
              structuredData).actionVerbs) ∧
      (generateRecommendations resumeText jobDescription analysis
          structuredData).overall.length =
        (generateRecommendations resumeText jobDescription analysis
            structuredData).keywords.length +
          (generateRecommendations resumeText jobDescription analysis
            structuredData).skills.length +
          (generateRecommendations resumeText jobDescription analysis
            structuredData).sections.length +
          (generateRecommendations resumeText jobDescription analysis
            structuredData).achievements.length +
          (generateRecommendations resumeText jobDescription analysis
            structuredData).actionVerbs.length := by
  intro rt jd an sd
  have hk := len_keywordRecs rt jd an
  have hs := len_skillsRecs rt jd sd
  have hsec := len_sectionRecs sd
  have hach := len_achievementRecs rt
  have hverb := len_actionVerbRecs rt
  have hfk : (generateRecommendations rt jd an sd).keywords =
      generateKeywordRecommendations rt jd an := rfl
  have hfs : (generateRecommendations rt jd an sd).skills =
      generateSkillsRecommendations rt jd sd := rfl
  have hfsec : (generateRecommendations rt jd an sd).sections =
      generateSectionRecommendations sd := rfl
  have hfach : (generateRecommendations rt jd an sd).achievements =
      generateAchievementRecommendations rt := rfl
  have hfverb : (generateRecommendations rt jd an sd).actionVerbs =
      generateActionVerbRecommendations rt := rfl
  have htot : ((generateRecommendations rt jd an sd).keywords ++
      (generateRecommendations rt jd an sd).skills ++
      (generateRecommendations rt jd an sd).sections ++
      (generateRecommendations rt jd an sd).achievements ++
      (generateRecommendations rt jd an sd).actionVerbs).length ≤ 10 := by
    simp only [List.length_append, hfk, hfs, hfsec, hfach, hfverb]
    omega
  have hover : (generateRecommendations rt jd an sd).overall =
      (sortByPriority ((generateRecommendations rt jd an sd).keywords ++
        (generateRecommendations rt jd an sd).skills ++
        (generateRecommendations rt jd an sd).sections ++
        (generateRecommendations rt jd an sd).achievements ++
        (generateRecommendations rt jd an sd).actionVerbs)).take 10 := rfl
  have hmain : (generateRecommendations rt jd an sd).overall =
      sortByPriority ((generateRecommendations rt jd an sd).keywords ++
        (generateRecommendations rt jd an sd).skills ++
        (generateRecommendations rt jd an sd).sections ++
        (generateRecommendations rt jd an sd).achievements ++
        (generateRecommendations rt jd an sd).actionVerbs) := by
    rw [hover]
    exact List.take_of_length_le (by rw [length_sortByPriority]; exact htot)
  refine ⟨hmain, ?_⟩
  rw [hmain, length_sortByPriority]
  simp only [List.length_append]

/-! ## C8 — monotonicity of the weighted keyword match -/

/-- A resume text of 29 distinct double-occurrence filler terms followed
by "qqz" (one occurrence, the sole term related to the job term "qq")
and one occurrence of "kk" (which therefore ranks 31st and is not
extracted). -/
def c8R : Str :=
  (("aa aa ab ab ac ac ad ad ae ae af af ag ag ah ah ai ai aj aj ak ak al al " ++
    "am am an an ao ao ap ap aq aq ar ar as as at at au au av av aw aw ax ax " ++
    "ay ay az az ba ba bb bb bc bc qqz kk").data)

/-- The same resume with one exact occurrence of the missing job keyword
"kk" appended; "kk" now has two occurrences and evicts "qqz" from the
top thirty. -/
def c8Rp : Str := c8R ++ (" kk").data

def c8J : Str := ("qq qq kk").data

def c8KwsJ : List Keyword := [{ term := ("qq").data, importance := 200 },
  { term := ("kk").data, importance := 100 }]

theorem c8_hJ : extractAdvancedKeywords c8J atsKeywordCount = c8KwsJ := by
  unfold extractAdvancedKeywords
  rw [show rankedTerms c8J atsKeywordCount
    = [((("qq").data : Str), 2), ((("kk").data : Str), 1)] from by decide]
  norm_num [c8KwsJ]

theorem c8_before :
    calculateWeightedKeywordMatch (extractAdvancedKeywords c8R atsKeywordCount)
      (extractAdvancedKeywords c8J atsKeywordCount) = 140/3 := by
  have g1 : (extractAdvancedKeywords c8R atsKeywordCount).isEmpty = false := by decide
  have e1 : kwHasExact ((extractAdvancedKeywords c8R atsKeywordCount).map
      (fun k => (lower k.term, k.importance))) (lower (("qq").data)) = false := by decide
  have e2 : kwHasPartial ((extractAdvancedKeywords c8R atsKeywordCount).map
      (fun k => (lower k.term, k.importance))) (lower (("qq").data)) = true := by decide
  have e3 : kwHasExact ((extractAdvancedKeywords c8R atsKeywordCount).map
      (fun k => (lower k.term, k.importance))) (lower (("kk").data)) = false := by decide
  have e4 : kwHasPartial ((extractAdvancedKeywords c8R atsKeywordCount).map
      (fun k => (lower k.term, k.importance))) (lower (("kk").data)) = false := by decide
  rw [c8_hJ]
  unfold calculateWeightedKeywordMatch
  rw [if_neg (by simp [c8KwsJ, g1])]
  simp only [c8KwsJ, List.map_cons, List.map_nil, List.sum_cons, List.sum_nil,
    List.foldl_cons, List.foldl_nil, wkmStep]
  simp only [e1, e2, e3, e4]
  norm_num

theorem c8_after :
    calculateWeightedKeywordMatch (extractAdvancedKeywords c8Rp atsKeywordCount)
      (extractAdvancedKeywords c8J atsKeywordCount) = 100/3 := by
  have g1 : (extractAdvancedKeywords c8Rp atsKeywordCount).isEmpty = false := by decide
  have e1 : kwHasExact ((extractAdvancedKeywords c8Rp atsKeywordCount).map
      (fun k => (lower k.term, k.importance))) (lower (("qq").data)) = false := by decide
  have e2 : kwHasPartial ((extractAdvancedKeywords c8Rp atsKeywordCount).map
      (fun k => (lower k.term, k.importance))) (lower (("qq").data)) = false := by decide
  have e3 : kwHasExact ((extractAdvancedKeywords c8Rp atsKeywordCount).map
      (fun k => (lower k.term, k.importance))) (lower (("kk").data)) = true := by decide
  rw [c8_hJ]
  unfold calculateWeightedKeywordMatch
  rw [if_neg (by simp [c8KwsJ, g1])]
  simp only [c8KwsJ, List.map_cons, List.map_nil, List.sum_cons, List.sum_nil,
    List.foldl_cons, List.foldl_nil, wkmStep]
  simp only [e1, e2, e3]
  norm_num

/-- C8 (counterexample): "kk" is a job keyword of nonzero importance with
no exact match among the resume's extracted keywords, the primed resume
adds exactly one occurrence of it, and yet the weighted keyword match
DECREASES (from 140/3 to 100/3): the added occurrence pushes "qqz" — the
sole partial match for the heavy job keyword "qq" — out of the top
thirty extracted keywords. -/
theorem c8_counterexample :
    c8Rp = c8R ++ (" kk").data ∧
    (∃ kw ∈ extractAdvancedKeywords c8J atsKeywordCount,
      kw.term = ("kk").data ∧ kw.importance ≠ 0) ∧
    ("kk").data ∉ (extractAdvancedKeywords c8R atsKeywordCount).map Keyword.term ∧
    calculateWeightedKeywordMatch (extractAdvancedKeywords c8Rp atsKeywordCount)
        (extractAdvancedKeywords c8J atsKeywordCount) <
      calculateWeightedKeywordMatch (extractAdvancedKeywords c8R atsKeywordCount)
        (extractAdvancedKeywords c8J atsKeywordCount) := by
  refine ⟨rfl, ?_, by decide, ?_⟩
  · refine ⟨{ term := ("kk").data, importance := 100 }, ?_, rfl, by norm_num⟩
    rw [c8_hJ]
    simp [c8KwsJ]
  · rw [c8_before, c8_after]
    norm_num

theorem kwHasExact_append (rmap : List (Str × ℚ)) (p : Str × ℚ) (t : Str)
    (h : kwHasExact rmap t = true) : kwHasExact (rmap ++ [p]) t = true := by
  unfold kwHasExact at h ⊢
  simp only [List.any_append, h, Bool.true_or]

theorem kwHasPartial_append (rmap : List (Str × ℚ)) (p : Str × ℚ) (t : Str)
    (h : kwHasPartial rmap t = true) : kwHasPartial (rmap ++ [p]) t = true := by
  unfold kwHasPartial at h ⊢
  simp only [List.any_append, h, Bool.true_or]

theorem wkmStep_le (rmap : List (Str × ℚ)) (k : Keyword) (hk : 0 ≤ k.importance)
    (a : ℚ) : a ≤ wkmStep rmap a k := by
  unfold wkmStep
  dsimp only
  split
  · linarith
  · split
    · linarith
    · exact le_refl a

theorem wkmStep_mono (rmap : List (Str × ℚ)) (p : Str × ℚ) (k : Keyword)
    (hk : 0 ≤ k.importance) {a b : ℚ} (ha : a ≤ b) :
    wkmStep rmap a k ≤ wkmStep (rmap ++ [p]) b k := by
  unfold wkmStep
  dsimp only
  by_cases h1 : kwHasExact rmap (lower k.term) = true
  · rw [if_pos h1, if_pos (kwHasExact_append rmap p _ h1)]
    linarith
  · rw [if_neg h1]
    by_cases h2 : kwHasPartial rmap (lower k.term) = true
    · rw [if_pos h2]
      by_cases h3 : kwHasExact (rmap ++ [p]) (lower k.term) = true
      · rw [if_pos h3]
        linarith
      · rw [if_neg h3, if_pos (kwHasPartial_append rmap p _ h2)]
        linarith
    · rw [if_neg h2]
      by_cases h3 : kwHasExact (rmap ++ [p]) (lower k.term) = true
      · rw [if_pos h3]
        linarith
      · rw [if_neg h3]
        by_cases h4 : kwHasPartial (rmap ++ [p]) (lower k.term) = true
        · rw [if_pos h4]
          linarith
        · rw [if_neg h4]
          exact ha

theorem wkmFold_mono (rmap : List (Str × ℚ)) (p : Str × ℚ) (jk : List Keyword)
    (hjk : ∀ k ∈ jk, 0 ≤ k.importance) :
    ∀ {a b : ℚ}, a ≤ b →
      jk.foldl (wkmStep rmap) a ≤ jk.foldl (wkmStep (rmap ++ [p])) b := by
  induction jk with
  | nil =>
    intro a b h
    simpa using h
  | cons k ks ih =>
    intro a b h
    simp only [List.foldl_cons]
    exact ih (fun x hx => hjk x (List.mem_cons_of_mem k hx))
      (wkmStep_mono rmap p k (hjk k (List.mem_cons_self k ks)) h)

theorem wkmFold_nonneg (rmap : List (Str × ℚ)) (jk : List Keyword)
    (hjk : ∀ k ∈ jk, 0 ≤ k.importance) :
    ∀ {a : ℚ}, 0 ≤ a → 0 ≤ jk.foldl (wkmStep rmap) a := by
  induction jk with
  | nil =>
    intro a h
    simpa using h
  | cons k ks ih =>
    intro a h
    simp only [List.foldl_cons]
    exact ih (fun x hx => hjk x (List.mem_cons_of_mem k hx))
      (le_trans h (wkmStep_le rmap k (hjk k (List.mem_cons_self k ks)) a))

theorem wkm_nonneg (rk jk : List Keyword) (hjk : ∀ k ∈ jk, 0 ≤ k.importance) :
    0 ≤ calculateWeightedKeywordMatch rk jk := by
  unfold calculateWeightedKeywordMatch
  split
  · exact le_refl 0
  · dsimp only
    by_cases ht : ((jk.map (fun k => k.importance)).sum : ℚ) > 0
    · rw [if_pos ht]
      exact mul_nonneg (div_nonneg (wkmFold_nonneg _ jk hjk (le_refl 0))
        (le_of_lt ht)) (by norm_num)
    · rw [if_neg ht]

/-- C8 (amended): the weighted keyword match is monotone at the
keyword-list level — appending a resume keyword never decreases the
score when the job importances are nonnegative.  The text-level claim
fails because re-extracting the top-N keywords after editing the resume
can evict a partially-matching keyword (see the counterexample). -/
theorem c8_append_monotone :
    ∀ (resumeKeywords jobKeywords : List Keyword) (kw : Keyword),
      (∀ k ∈ jobKeywords, 0 ≤ k.importance) →
      calculateWeightedKeywordMatch resumeKeywords jobKeywords ≤
        calculateWeightedKeywordMatch (resumeKeywords ++ [kw]) jobKeywords := by
  intro rk jk kw hjk
  rcases jk with _ | ⟨j0, js⟩
  · simp [calculateWeightedKeywordMatch]
  rcases rk with _ | ⟨r0, rs⟩
  · rw [show calculateWeightedKeywordMatch ([]) (j0 :: js) = 0 from by
      simp [calculateWeightedKeywordMatch]]
    exact wkm_nonneg _ _ hjk
  · unfold calculateWeightedKeywordMatch
    rw [if_neg (show ¬((((r0 :: rs) ++ [kw]).isEmpty || (j0 :: js).isEmpty) = true)
          from by simp),
      if_neg (show ¬(((r0 :: rs).isEmpty || (j0 :: js).isEmpty) = true) from by simp)]
    dsimp only
    rw [show ((r0 :: rs) ++ [kw]).map (fun k => (lower k.term, k.importance))
        = (r0 :: rs).map (fun k => (lower k.term, k.importance)) ++
          [(lower kw.term, kw.importance)] from by simp]
    by_cases ht : (((j0 :: js).map (fun k => k.importance)).sum : ℚ) > 0
    · rw [if_pos ht, if_pos ht]
      exact mul_le_mul_of_nonneg_right
        ((div_le_div_right ht).mpr
          (wkmFold_mono _ _ (j0 :: js) hjk (le_refl 0))) (by norm_num)
    · rw [if_neg ht, if_neg ht]

/-- C8 (witness): appending a keyword to a concrete one-element resume
keyword list does not decrease the score. -/
theorem c8_append_monotone_witness :
    calculateWeightedKeywordMatch
        [({ term := ("aa").data, importance := 100 } : Keyword)]
        [({ term := ("aa").data, importance := 50 } : Keyword)] ≤
      calculateWeightedKeywordMatch
        ([({ term := ("aa").data, importance := 100 } : Keyword)] ++
          [{ term := ("bb").data, importance := 10 }])
        [({ term := ("aa").data, importance := 50 } : Keyword)] :=
  c8_append_monotone _ _ _ (by
    intro k hk
    rcases List.mem_singleton.mp hk with rfl
    norm_num)


end ATS
